import Mathlib

/-!
# whatsmeow: connection lifecycle handlers (`connectionevents.go`)

A shallow embedding of `handleStreamError`, `handleIB`, `handleConnectFailure`,
`handleConnectSuccess` and `SetPassive`, and of the constants of package `socket`
(`socket/constants.go`) with the frame envelope they bound.

* Every call the handlers make to a method whose body is not part of the
  embedded file is recorded, in program order, as a `Call`.
* A `go` statement records one task: the calls that goroutine makes, in order.
* What the absent declarations compute (the `waBinary.Node` accessors, the
  `events` constants, `types.JID`) is a parameter of the handlers.
* What the collaborators return at run time is read from a `World`.
-/

namespace Whatsmeow

/-! ## Declarations used by the handlers but declared in other packages -/

/-- The `waBinary.Node` accessors the handlers use. `N` is the node type, `V` the
type of an attribute value (a Go `any`), `J` is `types.JID`. -/
structure NodeAPI (N V J : Type) where
  /-- The field read `node.Tag`. -/
  Tag : N → String
  /-- The map read `node.Attrs[key]`; `none` when the key is absent. -/
  Attrs : N → String → Option V
  /-- The type assertion `v.(string)`. -/
  asString : V → Option String
  /-- The method `node.GetOptionalChildByTag(tag)`. -/
  GetOptionalChildByTag : N → String → N × Bool
  /-- The method `node.GetChildren()`. -/
  GetChildren : N → List N
  /-- The call `node.AttrGetter().OptionalString(key)`. -/
  OptionalString : N → String → String
  /-- The call `node.AttrGetter().Int(key)`. -/
  Int : N → String → Int
  /-- The call `node.AttrGetter().JID(key)`. -/
  JID : N → String → J
  /-- The composite literal `waBinary.Node{Tag: tag}`. -/
  NodeWithTag : String → N

/-- The constants and methods of `events.ConnectFailureReason` (an `int`) that the
handlers use. -/
structure ReasonDecls where
  ConnectFailureLoggedOut : Int
  ConnectFailureTempBanned : Int
  ConnectFailureClientOutdated : Int
  ConnectFailureCATExpired : Int
  ConnectFailureCATInvalid : Int
  ConnectFailureInternalServerError : Int
  ConnectFailureServiceUnavailable : Int
  /-- The method `reason.IsLoggedOut()`. -/
  IsLoggedOut : Int → Bool
  /-- The method `reason.NumberString()`. -/
  NumberString : Int → String

/-- The declarations of package `types` and the pre-key threshold the handlers use. -/
structure TypeDecls (J : Type) where
  EmptyJID : J
  ServerJID : J
  /-- The method `jid.IsEmpty()`. -/
  IsEmpty : J → Bool
  MinPreKeyCount : Int

/-! ## Machine integers -/

/-- Two's complement wrap of an integer into the signed 64-bit range. -/
def wrapInt64 (x : Int) : Int :=
  (x + 2 ^ 63) % 2 ^ 64 - 2 ^ 63

/-- The constant `time.Second`, in nanoseconds. -/
def Second : Int := 1000000000

/-- The expression `time.Duration(n) * time.Second` on `int64`. -/
def secondsToDuration (n : Int) : Int :=
  wrapInt64 (wrapInt64 n * Second)

/-! ## Events, calls and client state -/

/-- The event values the handlers construct (package `events`). -/
inductive Event (N E : Type) where
  | ManualLoginReconnect
  | LoggedOut (OnConnect : Bool) (Reason : Int)
  | StreamReplaced
  | CATRefreshError (Error : E)
  | StreamError (Code : String) (Raw : N)
  | QRScannedWithoutMultidevice
  | OfflineSyncPreview (Total AppDataChanges Messages Notifications Receipts : Int)
  | OfflineSyncCompleted (Count : Int)
  | TemporaryBan (Code : Int) (Expire : Int)
  | ClientOutdated
  | ConnectFailure (Reason : Int) (Message : String) (Raw : N)
  | Connected

/-- The levels of `cli.Log`. -/
inductive LogLevel where
  | Debugf
  | Infof
  | Warnf
  | Errorf

/-- The `infoQuery` literal handed to `sendIQ`. -/
structure infoQuery (N J : Type) where
  Namespace : String
  IQType : String
  To : J
  Content : List N

/-- One call to a method whose body is outside the embedded file. -/
inductive Call (N J E : Type) where
  | clearResponseWaiters (node : N)
  | expectDisconnect
  | dispatchEvent (evt : Event N E)
  | Disconnect
  | connect
  | StoreDelete
  | StoreSave
  | RefreshCAT
  | RLock
  | RUnlock
  | StoreLIDPNMapping (lid pn : J)
  | UploadedPreKeyCount
  | getServerPreKeyCount
  | uploadPreKeys
  | sendIQ (query : infoQuery N J)
  | closeSocketWaitChan
  | Log (level : LogLevel) (format : String)

/-- Modelled from the spec: the session store `store.Device` is declared outside
this file; the handlers assign its `LID` field and read the two identities through
`getLID()/getPrimaryID()`, the stored secondary and primary identity. -/
structure Device (J : Type) where
  ID : J
  LID : J

/-- Modelled from the spec: `Device.GetLID`, the stored secondary identity. -/
def Device.GetLID {J : Type} (device : Device J) : J := device.LID

/-- Modelled from the spec: `Device.GetJID`, the stored primary identity. -/
def Device.GetJID {J : Type} (device : Device J) : J := device.ID

/-- The fields of `Client` the handlers read or assign. `RefreshCAT` is `none` for a
nil callback and `some r` for a callback that returns `r` (`none` is a nil error). -/
structure Client (J E : Type) where
  isLoggedIn : Bool
  LastSuccessfulConnect : Int
  AutoReconnectErrors : Int
  DisableLoginAutoReconnect : Bool
  RefreshCAT : Option (Option E)
  Store : Device J

/-- What the collaborators return during one handler run (`none` is a nil error).
`getServerPreKeyCount2` is the answer to the second query, made after an upload. -/
structure World (E : Type) where
  Now : Int
  StoreDelete : Option E
  StoreSave : Option E
  connect : Option E
  UploadedPreKeyCount : Int × Option E
  getServerPreKeyCount : Int × Option E
  getServerPreKeyCount2 : Int × Option E
  sendIQ : Option E

/-- The result of one handler run: the client afterwards, the calls made by the
handler itself, and one call list per goroutine it started, in start order. -/
structure Outcome (N J E : Type) where
  cli : Client J E
  calls : List (Call N J E)
  tasks : List (List (Call N J E))

/-- Record a call made by the handler itself. -/
def Outcome.call {N J E : Type} (o : Outcome N J E) (c : Call N J E) : Outcome N J E :=
  { o with calls := o.calls ++ [c] }

/-- Record a `go` statement whose goroutine makes the calls `t`. -/
def Outcome.go {N J E : Type} (o : Outcome N J E) (t : List (Call N J E)) : Outcome N J E :=
  { o with tasks := o.tasks ++ [t] }

/-- A Go run-time panic. -/
inductive Panic where
  | nilFunctionCall

/-! ## Observations on a run -/

/-- The events dispatched by a list of calls, in order. -/
def eventsOf {N J E : Type} : List (Call N J E) → List (Event N E)
  | [] => []
  | Call.dispatchEvent evt :: rest => evt :: eventsOf rest
  | _ :: rest => eventsOf rest

/-- Every call of a run: the handler's own, then those of its goroutines. -/
def Outcome.allCalls {N J E : Type} (o : Outcome N J E) : List (Call N J E) :=
  o.calls ++ o.tasks.flatten

/-- Every event dispatched in a run, by the handler or by one of its goroutines. -/
def Outcome.events {N J E : Type} (o : Outcome N J E) : List (Event N E) :=
  eventsOf o.allCalls

def Call.isExpectDisconnect {N J E : Type} : Call N J E → Bool
  | Call.expectDisconnect => true
  | _ => false

def Call.isStoreDelete {N J E : Type} : Call N J E → Bool
  | Call.StoreDelete => true
  | _ => false

def Call.isStoreSave {N J E : Type} : Call N J E → Bool
  | Call.StoreSave => true
  | _ => false

def Call.isRefreshCAT {N J E : Type} : Call N J E → Bool
  | Call.RefreshCAT => true
  | _ => false

def Call.isDisconnect {N J E : Type} : Call N J E → Bool
  | Call.Disconnect => true
  | _ => false

def Call.isConnect {N J E : Type} : Call N J E → Bool
  | Call.connect => true
  | _ => false

def Call.isClearResponseWaiters {N J E : Type} : Call N J E → Bool
  | Call.clearResponseWaiters _ => true
  | _ => false

def Call.isStoreLIDPNMapping {N J E : Type} : Call N J E → Bool
  | Call.StoreLIDPNMapping _ _ => true
  | _ => false

def Call.isUploadPreKeys {N J E : Type} : Call N J E → Bool
  | Call.uploadPreKeys => true
  | _ => false

def Call.isSendIQ {N J E : Type} : Call N J E → Bool
  | Call.sendIQ _ => true
  | _ => false

def Call.isDispatchEvent {N J E : Type} : Call N J E → Bool
  | Call.dispatchEvent _ => true
  | _ => false

def Call.isCloseSocketWaitChan {N J E : Type} : Call N J E → Bool
  | Call.closeSocketWaitChan => true
  | _ => false

/-- Expect-disconnect has been marked in a run: `cli.expectDisconnect()` was called. -/
def Outcome.markedExpectDisconnect {N J E : Type} (o : Outcome N J E) : Prop :=
  o.allCalls.countP Call.isExpectDisconnect ≠ 0

/-! ## handleStreamError -/

/-- The statement `code, _ := node.Attrs["code"].(string)`. -/
def streamErrorCode {N V J : Type} (api : NodeAPI N V J) (node : N) : String :=
  match api.Attrs node "code" with
  | some v =>
    match api.asString v with
    | some s => s
    | none => ""
  | none => ""

/-- The statements `conflict, _ := node.GetOptionalChildByTag("conflict")` and
`conflictType := conflict.AttrGetter().OptionalString("type")`. -/
def streamErrorConflictType {N V J : Type} (api : NodeAPI N V J) (node : N) : String :=
  api.OptionalString (api.GetOptionalChildByTag node "conflict").1 "type"

/-- The goroutine of the 515 case: `cli.Disconnect()`, then `cli.connect()`. -/
def reconnectTask {N J E : Type} (w : World E) : List (Call N J E) :=
  [Call.Disconnect, Call.connect] ++
    (match w.connect with
     | some _ => [Call.Log LogLevel.Errorf "Failed to reconnect after 515 code: %v"]
     | none => [])

/-- The method `(cli *Client) handleStreamError(node)`. -/
def handleStreamError {N V J E : Type} (api : NodeAPI N V J) (rd : ReasonDecls)
    (w : World E) (cli : Client J E) (node : N) : Outcome N J E :=
  let o : Outcome N J E :=
    { cli := { cli with isLoggedIn := false },
      calls := [Call.clearResponseWaiters node],
      tasks := [] }
  let code := streamErrorCode api node
  let conflictType := streamErrorConflictType api node
  if code = "515" then
    if cli.DisableLoginAutoReconnect then
      (o.call (Call.Log LogLevel.Infof
          "Got 515 code, but login autoreconnect is disabled, not reconnecting")).call
        (Call.dispatchEvent Event.ManualLoginReconnect)
    else
      (o.call (Call.Log LogLevel.Infof "Got 515 code, reconnecting...")).go (reconnectTask w)
  else if code = "401" ∧ conflictType = "device_removed" then
    let o := o.call Call.expectDisconnect
    let o := o.call (Call.Log LogLevel.Infof
      "Got device removed stream error, sending LoggedOut event and deleting session")
    let o := o.go [Call.dispatchEvent (Event.LoggedOut false rd.ConnectFailureLoggedOut)]
    let o := o.call Call.StoreDelete
    match w.StoreDelete with
    | some _ => o.call (Call.Log LogLevel.Warnf
        "Failed to delete store after device_removed error: %v")
    | none => o
  else if conflictType = "replaced" then
    let o := o.call Call.expectDisconnect
    let o := o.call (Call.Log LogLevel.Infof
      "Got replaced stream error, sending StreamReplaced event")
    o.go [Call.dispatchEvent Event.StreamReplaced]
  else if code = "503" then
    o.call (Call.Log LogLevel.Warnf
      "Got 503 stream error, assuming automatic reconnect will handle it")
  else if cli.RefreshCAT.isSome ∧
      (code = rd.NumberString rd.ConnectFailureCATInvalid ∨
       code = rd.NumberString rd.ConnectFailureCATExpired) then
    let o := o.call (Call.Log LogLevel.Infof
      "Got %s stream error, refreshing CAT before reconnecting...")
    let o := o.call Call.RLock
    let o := o.call Call.RefreshCAT
    let o :=
      match cli.RefreshCAT with
      | some (some err) =>
        let o := o.call (Call.Log LogLevel.Errorf "Failed to refresh CAT: %v")
        let o := o.call Call.expectDisconnect
        o.go [Call.dispatchEvent (Event.CATRefreshError err)]
      | _ => o
    o.call Call.RUnlock
  else
    let o := o.call (Call.Log LogLevel.Errorf "Unknown stream error: %s")
    o.go [Call.dispatchEvent (Event.StreamError code node)]

/-! ## handleConnectFailure -/

/-- The reason is one of the two rotating-credential reasons. -/
abbrev isCATReason (rd : ReasonDecls) (reason : Int) : Prop :=
  reason = rd.ConnectFailureCATInvalid ∨ reason = rd.ConnectFailureCATExpired

/-- The reason is one of the two reasons the first `switch` lets auto-reconnect. -/
abbrev isAutoReconnectReason (rd : ReasonDecls) (reason : Int) : Prop :=
  reason = rd.ConnectFailureServiceUnavailable ∨
    reason = rd.ConnectFailureInternalServerError

/-- The deferred `cli.socketLock.RUnlock()`, run when the handler returns. -/
def runDeferred {N J E : Type} (locked : Bool) (o : Outcome N J E) : Outcome N J E :=
  if locked then o.call Call.RUnlock else o

/-- The first `switch` of `handleConnectFailure`, on a run `o`: the run afterwards,
the value of `willAutoReconnect`, and whether `cli.socketLock.RLock()` was taken
(so that `RUnlock` is deferred). -/
def connectFailureSwitch {N J E : Type} (rd : ReasonDecls) (reason : Int)
    (o : Outcome N J E) : Outcome N J E × Bool × Bool :=
  if isAutoReconnectReason rd reason then (o, true, false)
  else if isCATReason rd reason then (o.call Call.RLock, true, true)
  else (o.call Call.expectDisconnect, false, false)

/-- The `if` / `else if` chain on the reason that ends `handleConnectFailure`, on a
run `o`. Calling the nil `cli.RefreshCAT` panics. -/
def connectFailureDispatch {N V J E : Type} (api : NodeAPI N V J) (rd : ReasonDecls)
    (w : World E) (cli : Client J E) (node : N) (reason : Int) (message : String)
    (willAutoReconnect : Bool) (o : Outcome N J E) : Except Panic (Outcome N J E) :=
  if rd.IsLoggedOut reason then
    let o := o.call (Call.Log LogLevel.Infof
      "Got %s connect failure, sending LoggedOut event and deleting session")
    let o := o.go [Call.dispatchEvent (Event.LoggedOut true reason)]
    let o := o.call Call.StoreDelete
    match w.StoreDelete with
    | some _ => Except.ok
        (o.call (Call.Log LogLevel.Warnf "Failed to delete store after %d failure: %v"))
    | none => Except.ok o
  else if reason = rd.ConnectFailureTempBanned then
    let o := o.call (Call.Log LogLevel.Warnf "Temporary ban connect failure: %s")
    Except.ok (o.go [Call.dispatchEvent
      (Event.TemporaryBan (api.Int node "code") (secondsToDuration (api.Int node "expire")))])
  else if reason = rd.ConnectFailureClientOutdated then
    let o := o.call (Call.Log LogLevel.Errorf
      "Client outdated (405) connect failure (client version: %s)")
    Except.ok (o.go [Call.dispatchEvent Event.ClientOutdated])
  else if isCATReason rd reason then
    let o := o.call (Call.Log LogLevel.Infof
      "Got %d/%s connect failure, refreshing CAT before reconnecting...")
    match cli.RefreshCAT with
    | none => Except.error Panic.nilFunctionCall
    | some r =>
      let o := o.call Call.RefreshCAT
      match r with
      | some err =>
        let o := o.call (Call.Log LogLevel.Errorf "Failed to refresh CAT: %v")
        let o := o.call Call.expectDisconnect
        Except.ok (o.go [Call.dispatchEvent (Event.CATRefreshError err)])
      | none => Except.ok o
  else if willAutoReconnect then
    Except.ok (o.call (Call.Log LogLevel.Warnf
      "Got %d/%s connect failure, assuming automatic reconnect will handle it"))
  else
    let o := o.call (Call.Log LogLevel.Warnf "Unknown connect failure: %s")
    Except.ok (o.go [Call.dispatchEvent (Event.ConnectFailure reason message node)])

/-- The method `(cli *Client) handleConnectFailure(node)`: the first `switch`, the
log line for reason 403, the chain on the reason, and on return the deferred
`RUnlock`. -/
def handleConnectFailure {N V J E : Type} (api : NodeAPI N V J) (rd : ReasonDecls)
    (w : World E) (cli : Client J E) (node : N) : Except Panic (Outcome N J E) :=
  let reason := api.Int node "reason"
  let message := api.OptionalString node "message"
  let sw := connectFailureSwitch rd reason { cli := cli, calls := [], tasks := [] }
  let o :=
    if reason = 403 then
      sw.1.call (Call.Log LogLevel.Debugf "Message for 403 connect failure: %s / %s")
    else sw.1
  match connectFailureDispatch api rd w cli node reason message sw.2.1 o with
  | Except.ok out => Except.ok (runDeferred sw.2.2 out)
  | Except.error p => Except.error p

/-! ## SetPassive and handleConnectSuccess -/

/-- The method `(cli *Client) SetPassive(ctx, passive)`: the calls it makes and the
error it returns. -/
def SetPassive {N V J E : Type} (api : NodeAPI N V J) (td : TypeDecls J) (w : World E)
    (passive : Bool) : List (Call N J E) × Option E :=
  let tag := if passive then "passive" else "active"
  let query : infoQuery N J :=
    { Namespace := "passive", IQType := "set", To := td.ServerJID,
      Content := [api.NodeWithTag tag] }
  match w.sendIQ with
  | some err => ([Call.sendIQ query], some err)
  | none => ([Call.sendIQ query], none)

/-- The pre-key part of the goroutine of `handleConnectSuccess` (the `if` / `else if`
/ `else` chain on the two counts). -/
def preKeyCheck {N J E : Type} (td : TypeDecls J) (w : World E) : List (Call N J E) :=
  match w.UploadedPreKeyCount with
  | (_, some _) =>
    [Call.UploadedPreKeyCount,
     Call.Log LogLevel.Errorf "Failed to get number of prekeys in database: %v"]
  | (dbCount, none) =>
    match w.getServerPreKeyCount with
    | (_, some _) =>
      [Call.UploadedPreKeyCount, Call.getServerPreKeyCount,
       Call.Log LogLevel.Warnf "Failed to get number of prekeys on server: %v"]
    | (serverCount, none) =>
      [Call.UploadedPreKeyCount, Call.getServerPreKeyCount,
       Call.Log LogLevel.Debugf "Database has %d prekeys, server says we have %d"] ++
      (if serverCount < td.MinPreKeyCount ∨ dbCount < td.MinPreKeyCount then
        [Call.uploadPreKeys, Call.getServerPreKeyCount,
         Call.Log LogLevel.Debugf "Prekey count after upload: %d"]
      else [])

/-- The end of the goroutine of `handleConnectSuccess`: `SetPassive(ctx, false)`,
the warning when it fails, the `Connected` event and `closeSocketWaitChan`. -/
def postConnect {N V J E : Type} (api : NodeAPI N V J) (td : TypeDecls J)
    (w : World E) : List (Call N J E) :=
  let sp : List (Call N J E) × Option E := SetPassive api td w false
  sp.1 ++
    (match sp.2 with
     | some _ => [Call.Log LogLevel.Warnf "Failed to send post-connect passive IQ: %v"]
     | none => []) ++
    [Call.dispatchEvent Event.Connected, Call.closeSocketWaitChan]

/-- The goroutine started at the end of `handleConnectSuccess`. -/
def connectSuccessTask {N V J E : Type} (api : NodeAPI N V J) (td : TypeDecls J)
    (w : World E) : List (Call N J E) :=
  preKeyCheck td w ++ postConnect api td w

/-- The two `if` statements of `handleConnectSuccess` that reconcile the stored LID
with the LID of the node, on a run `o`. `Store.Save` writes the device out and
leaves the fields of `cli.Store` as they are. -/
def reconcileLID {N J E : Type} [DecidableEq J] (td : TypeDecls J) (w : World E)
    (nodeLID : J) (o : Outcome N J E) : Outcome N J E :=
  let o :=
    if td.IsEmpty o.cli.Store.LID = false ∧ td.IsEmpty nodeLID = false ∧
        o.cli.Store.LID ≠ nodeLID then
      let o := o.call (Call.Log LogLevel.Warnf
        "Stored LID doesn't match one in connect success: %s != %s")
      { o with cli := { o.cli with Store := { o.cli.Store with LID := td.EmptyJID } } }
    else o
  if td.IsEmpty o.cli.Store.LID = true ∧ td.IsEmpty nodeLID = false then
    let o : Outcome N J E :=
      { o with cli := { o.cli with Store := { o.cli.Store with LID := nodeLID } } }
    let o := o.call Call.StoreSave
    match w.StoreSave with
    | some _ => o.call (Call.Log LogLevel.Warnf
        "Failed to save device after updating LID: %v")
    | none => o.call (Call.Log LogLevel.Infof "Updated LID to %s")
  else o

/-- The method `(cli *Client) handleConnectSuccess(node)`. -/
def handleConnectSuccess {N V J E : Type} [DecidableEq J] (api : NodeAPI N V J)
    (td : TypeDecls J) (w : World E) (cli : Client J E) (node : N) : Outcome N J E :=
  let o : Outcome N J E :=
    { cli := { cli with
        LastSuccessfulConnect := w.Now, AutoReconnectErrors := 0, isLoggedIn := true },
      calls := [Call.Log LogLevel.Infof "Successfully authenticated"],
      tasks := [] }
  let nodeLID := api.JID node "lid"
  let o := reconcileLID td w nodeLID o
  let o := o.call (Call.StoreLIDPNMapping o.cli.Store.GetLID o.cli.Store.GetJID)
  o.go (connectSuccessTask api td w)

/-! ## handleIB -/

/-- The body of the loop of `handleIB` for one child, on a run `o`: the `switch` on
`child.Tag`. -/
def handleIBChild {N V J E : Type} (api : NodeAPI N V J) (o : Outcome N J E)
    (child : N) : Outcome N J E :=
  if api.Tag child = "downgrade_webclient" then
    o.go [Call.dispatchEvent Event.QRScannedWithoutMultidevice]
  else if api.Tag child = "offline_preview" then
    o.call (Call.dispatchEvent (Event.OfflineSyncPreview
      (api.Int child "count") (api.Int child "appdata") (api.Int child "message")
      (api.Int child "notification") (api.Int child "receipt")))
  else if api.Tag child = "offline" then
    o.call (Call.dispatchEvent (Event.OfflineSyncCompleted (api.Int child "count")))
  else o

/-- The method `(cli *Client) handleIB(node)`: the loop over `node.GetChildren()`. -/
def handleIB {N V J E : Type} (api : NodeAPI N V J) (cli : Client J E) (node : N) :
    Outcome N J E :=
  (api.GetChildren node).foldl (handleIBChild api) { cli := cli, calls := [], tasks := [] }

/-! ## Package socket: constants and the frame envelope -/

/-- The constant `NoiseStartPattern`. -/
def NoiseStartPattern : String := "Noise_XX_25519_AESGCM_SHA256\x00\x00\x00\x00"

/-- The constant `WADictVersion`. -/
def WADictVersion : Nat := 2

/-- The constant `WAMagicValue`. -/
def WAMagicValue : Nat := 5

/-- The variable `WAConnHeader`, a byte slice. -/
def WAConnHeader : List Nat := ['W'.toNat, 'A'.toNat, WAMagicValue, WADictVersion]

/-- The constant `FrameMaxSize`. -/
def FrameMaxSize : Nat := 2 <<< 23

/-- The constant `FrameLengthSize`. -/
def FrameLengthSize : Nat := 3

/-- The bytes of a string constant whose characters are all ASCII: one byte per
character, its code. -/
def stringBytes (s : String) : List Nat := s.toList.map Char.toNat

/-- The failure of the frame codec. -/
inductive FrameError where
  | OversizedPayload

/-- Modelled from the spec: the 3-byte big-endian unsigned length prefix of the frame
envelope (the frame codec is not among the source files); each byte keeps the low 8
bits of its part of the length. -/
def lengthPrefix (n : Nat) : List Nat :=
  [(n >>> 16) % 256, (n >>> 8) % 256, n % 256]

/-- Modelled from the spec: `encodeFrame(payload)`, which "fails with
`OversizedPayload` if `len(payload) > FrameMaxSize`; otherwise returns the 3-byte
big-endian length prefix followed by payload". -/
def encodeFrame (payload : List Nat) : Except FrameError (List Nat) :=
  if payload.length > FrameMaxSize then Except.error FrameError.OversizedPayload
  else Except.ok (lengthPrefix payload.length ++ payload)

/-- The outcome of `decodeNext`. -/
inductive DecodeResult where
  | Frame (payload rest : List Nat)
  | NeedMoreData
  | Error (err : FrameError)

/-- Modelled from the spec: `decodeNext(reader)`, which "reads exactly 3 bytes to
obtain a declared length; if the declared length exceeds `FrameMaxSize`, fails with
`OversizedPayload`", otherwise "reads exactly that many bytes as the payload", and
signals "need more data" on a short read. -/
def decodeNext (input : List Nat) : DecodeResult :=
  match input with
  | b0 :: b1 :: b2 :: rest =>
    let declared := b0 * 65536 + b1 * 256 + b2
    if declared > FrameMaxSize then DecodeResult.Error FrameError.OversizedPayload
    else if rest.length < declared then DecodeResult.NeedMoreData
    else DecodeResult.Frame (rest.take declared) (rest.drop declared)
  | _ => DecodeResult.NeedMoreData

/-! ## A concrete instance of the outside declarations

Used to evaluate the handlers on concrete nodes. -/

/-- A concrete identity to evaluate the handlers on: a user on a server, empty when
it names no server. -/
structure SampleJID where
  User : String
  Server : String
deriving DecidableEq

/-- An attribute value: a string, an integer or an identity. -/
inductive SampleValue where
  | str (s : String)
  | num (n : Int)
  | jid (j : SampleJID)

/-- A concrete node to evaluate the handlers on: a tag, attributes and child
nodes. -/
inductive SampleNode where
  | mk (Tag : String) (Attrs : List (String × SampleValue)) (Content : List SampleNode)

def SampleNode.Tag : SampleNode → String
  | SampleNode.mk tag _ _ => tag

def SampleNode.Attrs : SampleNode → List (String × SampleValue)
  | SampleNode.mk _ attrs _ => attrs

def SampleNode.Content : SampleNode → List SampleNode
  | SampleNode.mk _ _ content => content

/-- The value stored under `key`, if any. -/
def sampleLookup (key : String) : List (String × SampleValue) → Option SampleValue
  | [] => none
  | (k, v) :: rest => if k = key then some v else sampleLookup key rest

/-- The first child with the given tag; the zero node when there is none. -/
def sampleChildByTag (tag : String) : List SampleNode → SampleNode × Bool
  | [] => (SampleNode.mk "" [] [], false)
  | c :: rest => if c.Tag = tag then (c, true) else sampleChildByTag tag rest

/-- The identity with no user and no server. -/
def sampleEmptyJID : SampleJID := { User := "", Server := "" }

/-- The node accessors on `SampleNode`: attribute and child lookup by name, with the
zero value when the attribute is absent or of another type. -/
def sampleAPI : NodeAPI SampleNode SampleValue SampleJID where
  Tag := SampleNode.Tag
  Attrs := fun node key => sampleLookup key node.Attrs
  asString := fun v =>
    match v with
    | SampleValue.str s => some s
    | _ => none
  GetOptionalChildByTag := fun node tag => sampleChildByTag tag node.Content
  GetChildren := SampleNode.Content
  OptionalString := fun node key =>
    match sampleLookup key node.Attrs with
    | some (SampleValue.str s) => s
    | _ => ""
  Int := fun node key =>
    match sampleLookup key node.Attrs with
    | some (SampleValue.num n) => n
    | _ => 0
  JID := fun node key =>
    match sampleLookup key node.Attrs with
    | some (SampleValue.jid j) => j
    | _ => sampleEmptyJID
  NodeWithTag := fun tag => SampleNode.mk tag [] []

/-- The decimal rendering used for the reason codes of `sampleReasons`. -/
def sampleNumberString (reason : Int) : String :=
  if reason = 413 then "413" else if reason = 414 then "414" else
  if reason = 401 then "401" else if reason = 500 then "500" else
  if reason = 503 then "503" else "other"

/-- Reason codes with pairwise distinct values; 401, 403 and 406 are the logged-out
reasons. -/
def sampleReasons : ReasonDecls where
  ConnectFailureLoggedOut := 401
  ConnectFailureTempBanned := 402
  ConnectFailureClientOutdated := 405
  ConnectFailureCATExpired := 413
  ConnectFailureCATInvalid := 414
  ConnectFailureInternalServerError := 500
  ConnectFailureServiceUnavailable := 503
  IsLoggedOut := fun reason => reason == 401 || reason == 403 || reason == 406
  NumberString := sampleNumberString

/-- The empty and the server identity, emptiness by the server name, and a pre-key
threshold of 5. -/
def sampleTypes : TypeDecls SampleJID where
  EmptyJID := sampleEmptyJID
  ServerJID := { User := "", Server := "s.whatsapp.net" }
  IsEmpty := fun jid => jid.Server.length == 0
  MinPreKeyCount := 5

/-- A world in which every collaborator succeeds and both pre-key counts are 30. -/
def sampleWorld : World String where
  Now := 0
  StoreDelete := none
  StoreSave := none
  connect := none
  UploadedPreKeyCount := (30, none)
  getServerPreKeyCount := (30, none)
  getServerPreKeyCount2 := (30, none)
  sendIQ := none

/-- A logged-in client with a primary identity, no LID and no refresh callback. -/
def sampleClient : Client SampleJID String where
  isLoggedIn := true
  LastSuccessfulConnect := 0
  AutoReconnectErrors := 0
  DisableLoginAutoReconnect := false
  RefreshCAT := none
  Store := { ID := { User := "1555", Server := "s.whatsapp.net" }, LID := sampleEmptyJID }

/-! ## Stream errors -/

/-- C1: a stream error with code "401" and conflict type "device_removed" marks
expect-disconnect, dispatches exactly the one event
`LoggedOut{OnConnect: false, Reason: ConnectFailureLoggedOut}`, calls `Store.Delete`
exactly once and performs no `Disconnect` or `connect`, whatever the configuration
and whatever `Store.Delete` returns. -/
theorem handleStreamError_device_removed {N V J E : Type} (api : NodeAPI N V J)
    (rd : ReasonDecls) (w : World E) (cli : Client J E) (node : N)
    (hcode : streamErrorCode api node = "401")
    (hconflict : streamErrorConflictType api node = "device_removed") :
    (handleStreamError api rd w cli node).markedExpectDisconnect ∧
    (handleStreamError api rd w cli node).events =
      [Event.LoggedOut false rd.ConnectFailureLoggedOut] ∧
    (handleStreamError api rd w cli node).allCalls.countP Call.isStoreDelete = 1 ∧
    (handleStreamError api rd w cli node).allCalls.countP Call.isDisconnect = 0 ∧
    (handleStreamError api rd w cli node).allCalls.countP Call.isConnect = 0 := by
  unfold handleStreamError Outcome.markedExpectDisconnect Outcome.events Outcome.allCalls
  cases hd : w.StoreDelete <;>
    simp [hcode, hconflict, hd, Outcome.call, Outcome.go, eventsOf, List.countP_cons,
      Call.isExpectDisconnect, Call.isStoreDelete, Call.isDisconnect, Call.isConnect]

/-- A stream error with code "401" and a conflict child of type "device_removed". -/
def nodeDeviceRemoved : SampleNode :=
  SampleNode.mk "stream:error" [("code", SampleValue.str "401")]
    [SampleNode.mk "conflict" [("type", SampleValue.str "device_removed")] []]

/-- A world in which `Store.Delete` fails and everything else succeeds. -/
def worldDeleteFails : World String :=
  { sampleWorld with StoreDelete := some "database is locked" }

theorem handleStreamError_device_removed_witness :
    streamErrorCode sampleAPI nodeDeviceRemoved = "401" ∧
    streamErrorConflictType sampleAPI nodeDeviceRemoved = "device_removed" ∧
    (handleStreamError sampleAPI sampleReasons worldDeleteFails sampleClient
      nodeDeviceRemoved).events = [Event.LoggedOut false 401] :=
  ⟨by decide, by decide,
   (handleStreamError_device_removed sampleAPI sampleReasons worldDeleteFails sampleClient
      nodeDeviceRemoved (by decide) (by decide)).2.1⟩

/-- C2: a stream error with code "515", whatever its conflict child. With login
auto-reconnect enabled the handler starts one goroutine that calls `Disconnect` and
then `connect`, dispatches no event (also when `connect` fails), does not mark
expect-disconnect and does not call `Store.Delete`. With it disabled the handler
dispatches exactly `ManualLoginReconnect` and calls neither `Disconnect` nor
`connect`. -/
theorem handleStreamError_515 {N V J E : Type} (api : NodeAPI N V J)
    (rd : ReasonDecls) (w : World E) (cli : Client J E) (node : N)
    (hcode : streamErrorCode api node = "515") :
    (cli.DisableLoginAutoReconnect = false →
      (∃ rest, (handleStreamError api rd w cli node).tasks =
          [Call.Disconnect :: Call.connect :: rest]) ∧
      (handleStreamError api rd w cli node).allCalls.countP Call.isDisconnect = 1 ∧
      (handleStreamError api rd w cli node).allCalls.countP Call.isConnect = 1 ∧
      (handleStreamError api rd w cli node).events = [] ∧
      ¬ (handleStreamError api rd w cli node).markedExpectDisconnect ∧
      (handleStreamError api rd w cli node).allCalls.countP Call.isStoreDelete = 0) ∧
    (cli.DisableLoginAutoReconnect = true →
      (handleStreamError api rd w cli node).events = [Event.ManualLoginReconnect] ∧
      (handleStreamError api rd w cli node).tasks = [] ∧
      (handleStreamError api rd w cli node).allCalls.countP Call.isDisconnect = 0 ∧
      (handleStreamError api rd w cli node).allCalls.countP Call.isConnect = 0) := by
  unfold handleStreamError Outcome.markedExpectDisconnect Outcome.events Outcome.allCalls
    reconnectTask
  constructor
  · intro hdis
    cases hc : w.connect <;>
      simp [hcode, hdis, hc, Outcome.call, Outcome.go, eventsOf, List.countP_cons,
        Call.isExpectDisconnect, Call.isStoreDelete, Call.isDisconnect, Call.isConnect]
  · intro hdis
    simp [hcode, hdis, Outcome.call, Outcome.go, eventsOf, List.countP_cons,
      Call.isDisconnect, Call.isConnect]

/-- A stream error with code "515" that also carries a "replaced" conflict. -/
def node515Replaced : SampleNode :=
  SampleNode.mk "stream:error" [("code", SampleValue.str "515")]
    [SampleNode.mk "conflict" [("type", SampleValue.str "replaced")] []]

/-- A world in which `connect` fails and everything else succeeds. -/
def worldConnectFails : World String :=
  { sampleWorld with connect := some "dial timeout" }

theorem handleStreamError_515_witness :
    streamErrorCode sampleAPI node515Replaced = "515" ∧
    sampleClient.DisableLoginAutoReconnect = false ∧
    (handleStreamError sampleAPI sampleReasons worldConnectFails sampleClient
      node515Replaced).events = [] :=
  ⟨by decide, by decide,
   ((handleStreamError_515 sampleAPI sampleReasons worldConnectFails sampleClient
      node515Replaced (by decide)).1 (by decide)).2.2.2.1⟩

/-- C3: a stream error that is none of the recognised cases (code neither "515" nor
"503", not "401" with "device_removed", conflict type not "replaced", and either no
`RefreshCAT` callback or a code that is not one of the two CAT number strings)
dispatches exactly the one event `StreamError{Code: code, Raw: node}`, where `code`
is the string stored under "code" and is empty when that attribute is missing or
is not a string; the handler does not mark expect-disconnect and calls neither
`Store.Delete` nor `RefreshCAT`. -/
theorem handleStreamError_unknown {N V J E : Type} (api : NodeAPI N V J)
    (rd : ReasonDecls) (w : World E) (cli : Client J E) (node : N)
    (h515 : streamErrorCode api node ≠ "515")
    (h503 : streamErrorCode api node ≠ "503")
    (h401 : ¬ (streamErrorCode api node = "401" ∧
      streamErrorConflictType api node = "device_removed"))
    (hreplaced : streamErrorConflictType api node ≠ "replaced")
    (hcat : cli.RefreshCAT = none ∨
      (streamErrorCode api node ≠ rd.NumberString rd.ConnectFailureCATInvalid ∧
       streamErrorCode api node ≠ rd.NumberString rd.ConnectFailureCATExpired)) :
    (handleStreamError api rd w cli node).events =
      [Event.StreamError (streamErrorCode api node) node] ∧
    (api.Attrs node "code" = none → streamErrorCode api node = "") ∧
    (∀ v, api.Attrs node "code" = some v → api.asString v = none →
      streamErrorCode api node = "") ∧
    (∀ v s, api.Attrs node "code" = some v → api.asString v = some s →
      streamErrorCode api node = s) ∧
    ¬ (handleStreamError api rd w cli node).markedExpectDisconnect ∧
    (handleStreamError api rd w cli node).allCalls.countP Call.isStoreDelete = 0 ∧
    (handleStreamError api rd w cli node).allCalls.countP Call.isRefreshCAT = 0 := by
  have hbranch : ¬ (cli.RefreshCAT.isSome = true ∧
      (streamErrorCode api node = rd.NumberString rd.ConnectFailureCATInvalid ∨
       streamErrorCode api node = rd.NumberString rd.ConnectFailureCATExpired)) := by
    rintro ⟨hsome, hor⟩
    rcases hcat with hnone | ⟨hinv, hexp⟩
    · simp [hnone] at hsome
    · rcases hor with h | h
      · exact hinv h
      · exact hexp h
  refine ⟨?_, ?_, ?_, ?_, ?_, ?_, ?_⟩
  · unfold handleStreamError Outcome.events Outcome.allCalls
    simp [h515, h503, h401, hreplaced, hbranch, Outcome.call, Outcome.go, eventsOf]
  · intro hnone
    simp [streamErrorCode, hnone]
  · intro v hv hs
    simp [streamErrorCode, hv, hs]
  · intro v s hv hs
    simp [streamErrorCode, hv, hs]
  · unfold handleStreamError Outcome.markedExpectDisconnect Outcome.allCalls
    simp [h515, h503, h401, hreplaced, hbranch, Outcome.call, Outcome.go,
      List.countP_cons, Call.isExpectDisconnect]
  · unfold handleStreamError Outcome.allCalls
    simp [h515, h503, h401, hreplaced, hbranch, Outcome.call, Outcome.go,
      List.countP_cons, Call.isStoreDelete]
  · unfold handleStreamError Outcome.allCalls
    simp [h515, h503, h401, hreplaced, hbranch, Outcome.call, Outcome.go,
      List.countP_cons, Call.isRefreshCAT]

/-- A stream error whose code attribute holds an integer, not a string. -/
def nodeCodeNotString : SampleNode :=
  SampleNode.mk "stream:error" [("code", SampleValue.num 516)] []

theorem handleStreamError_unknown_witness :
    streamErrorCode sampleAPI nodeCodeNotString ≠ "515" ∧
    streamErrorCode sampleAPI nodeCodeNotString ≠ "503" ∧
    ¬ (streamErrorCode sampleAPI nodeCodeNotString = "401" ∧
      streamErrorConflictType sampleAPI nodeCodeNotString = "device_removed") ∧
    streamErrorConflictType sampleAPI nodeCodeNotString ≠ "replaced" ∧
    sampleClient.RefreshCAT = none ∧
    (handleStreamError sampleAPI sampleReasons sampleWorld sampleClient
      nodeCodeNotString).events = [Event.StreamError "" nodeCodeNotString] :=
  ⟨by decide, by decide, by decide, by decide, rfl,
   (handleStreamError_unknown sampleAPI sampleReasons sampleWorld sampleClient
      nodeCodeNotString (by decide) (by decide) (by decide) (by decide)
      (Or.inl rfl)).1⟩

/-! ## Connect failures -/

/-- A call to `cli.Log`. -/
def Call.isLog {N J E : Type} : Call N J E → Bool
  | Call.Log _ _ => true
  | _ => false

/-- The log line for reason 403 appends only log calls to the run. -/
theorem log403_calls {N J E : Type} (reason : Int) :
    ∃ l : List (Call N J E),
      (∀ o : Outcome N J E,
        (if reason = 403 then
          o.call (Call.Log LogLevel.Debugf "Message for 403 connect failure: %s / %s")
         else o) = { o with calls := o.calls ++ l }) ∧
      ∀ c ∈ l, c.isLog = true := by
  by_cases h : reason = 403
  · exact ⟨[Call.Log LogLevel.Debugf "Message for 403 connect failure: %s / %s"],
      by simp [h, Outcome.call], by simp [Call.isLog]⟩
  · exact ⟨[], by simp [h], by simp⟩

/-- A call that `isLog` recognises is a `Call.Log`. -/
theorem eq_Log_of_isLog {N J E : Type} (c : Call N J E) (h : c.isLog = true) :
    ∃ lvl fmt, c = Call.Log lvl fmt := by
  cases c <;> first | exact ⟨_, _, rfl⟩ | exact Bool.noConfusion h

/-- Log calls are not counted by a predicate that is false on every log call. -/
theorem countP_logs {N J E : Type} (p : Call N J E → Bool)
    (hp : ∀ lvl fmt, p (Call.Log lvl fmt) = false) (l : List (Call N J E))
    (hl : ∀ c ∈ l, c.isLog = true) : l.countP p = 0 := by
  rw [List.countP_eq_zero]
  intro c hc
  obtain ⟨lvl, fmt, rfl⟩ := eq_Log_of_isLog c (hl c hc)
  rw [hp]
  exact Bool.false_ne_true

/-- Log calls dispatch no event. -/
theorem eventsOf_logs {N J E : Type} (l : List (Call N J E))
    (hl : ∀ c ∈ l, c.isLog = true) : eventsOf l = [] := by
  induction l with
  | nil => rfl
  | cons c rest ih =>
    obtain ⟨lvl, fmt, rfl⟩ := eq_Log_of_isLog c (hl c (List.mem_cons_self _ _))
    exact ih (fun d hd => hl d (List.mem_cons_of_mem _ hd))

/-- The events of two call lists in sequence. -/
theorem eventsOf_append {N J E : Type} (l₁ l₂ : List (Call N J E)) :
    eventsOf (l₁ ++ l₂) = eventsOf l₁ ++ eventsOf l₂ := by
  induction l₁ with
  | nil => rfl
  | cons c rest ih => cases c <;> simp [eventsOf, ih]

/-- Recording a call adds it to the count when the predicate holds of it. -/
theorem countP_allCalls_call {N J E : Type} (p : Call N J E → Bool) (o : Outcome N J E)
    (c : Call N J E) :
    (o.call c).allCalls.countP p = o.allCalls.countP p + (if p c then 1 else 0) := by
  simp only [Outcome.call, Outcome.allCalls, List.countP_append, List.countP_cons,
    List.countP_nil]
  omega

/-- Recording a goroutine adds the calls it makes to the count. -/
theorem countP_allCalls_go {N J E : Type} (p : Call N J E → Bool) (o : Outcome N J E)
    (t : List (Call N J E)) :
    (o.go t).allCalls.countP p = o.allCalls.countP p + t.countP p := by
  simp only [Outcome.go, Outcome.allCalls, List.countP_append, List.flatten_append,
    List.flatten_cons, List.flatten_nil, List.append_nil]
  omega

/-- A run that has made no call yet counts none. -/
theorem countP_allCalls_init {N J E : Type} (p : Call N J E → Bool) (cli : Client J E) :
    ({ cli := cli, calls := [], tasks := [] } : Outcome N J E).allCalls.countP p = 0 := rfl

/-- Recording a call that is not a dispatch leaves the events of the run as they are. -/
theorem events_call {N J E : Type} (o : Outcome N J E) (c : Call N J E)
    (hc : c.isDispatchEvent = false) : (o.call c).events = o.events := by
  have h : eventsOf [c] = [] := by
    cases c <;> first | rfl | exact Bool.noConfusion hc
  simp only [Outcome.call, Outcome.events, Outcome.allCalls, eventsOf_append, h,
    List.append_nil]

/-- Recording a goroutine adds the events it dispatches after those of the run. -/
theorem events_go {N J E : Type} (o : Outcome N J E) (t : List (Call N J E)) :
    (o.go t).events = o.events ++ eventsOf t := by
  simp [Outcome.go, Outcome.events, Outcome.allCalls, eventsOf_append]

/-- A run that has made no call yet has dispatched no event. -/
theorem events_init {N J E : Type} (cli : Client J E) :
    ({ cli := cli, calls := [], tasks := [] } : Outcome N J E).events = [] := rfl

/-- The log line for reason 403 dispatches no event. -/
theorem events_log403 {N J E : Type} (reason : Int) (o : Outcome N J E) :
    (if reason = 403 then
      o.call (Call.Log LogLevel.Debugf "Message for 403 connect failure: %s / %s")
     else o).events = o.events := by
  split
  · exact events_call o _ rfl
  · rfl

/-- The log line for reason 403 changes the count of no call other than a log call. -/
theorem countP_allCalls_log403 {N J E : Type} (p : Call N J E → Bool)
    (hp : ∀ lvl fmt, p (Call.Log lvl fmt) = false) (reason : Int) (o : Outcome N J E) :
    (if reason = 403 then
      o.call (Call.Log LogLevel.Debugf "Message for 403 connect failure: %s / %s")
     else o).allCalls.countP p = o.allCalls.countP p := by
  split
  · rw [countP_allCalls_call, hp]; simp
  · rfl

/-- When the reason is not a CAT reason the chain on the reason returns, and it does
not call `expectDisconnect`. -/
theorem connectFailureDispatch_expectDisconnect_of_not_cat {N V J E : Type}
    (api : NodeAPI N V J) (rd : ReasonDecls) (w : World E) (cli : Client J E) (node : N)
    (reason : Int) (message : String) (willAutoReconnect : Bool) (o : Outcome N J E)
    (hcat : ¬ isCATReason rd reason) :
    ∃ out, connectFailureDispatch api rd w cli node reason message willAutoReconnect o =
        Except.ok out ∧
      out.allCalls.countP Call.isExpectDisconnect =
        o.allCalls.countP Call.isExpectDisconnect := by
  unfold connectFailureDispatch
  split_ifs
  · cases w.StoreDelete <;>
      exact ⟨_, rfl, by
        simp [countP_allCalls_call, countP_allCalls_go, Call.isExpectDisconnect]⟩
  all_goals
    exact ⟨_, rfl, by
      simp [countP_allCalls_call, countP_allCalls_go, Call.isExpectDisconnect]⟩

/-- The chain on the reason at a CAT reason that is neither a logged-out reason nor
TempBanned nor ClientOutdated: it calls `cli.RefreshCAT`. -/
theorem connectFailureDispatch_cat {N V J E : Type}
    (api : NodeAPI N V J) (rd : ReasonDecls) (w : World E) (cli : Client J E) (node : N)
    (reason : Int) (message : String) (willAutoReconnect : Bool) (o : Outcome N J E)
    (hcat : isCATReason rd reason) (hlo : rd.IsLoggedOut reason = false)
    (hban : reason ≠ rd.ConnectFailureTempBanned)
    (hout : reason ≠ rd.ConnectFailureClientOutdated) :
    connectFailureDispatch api rd w cli node reason message willAutoReconnect o =
      match cli.RefreshCAT with
      | none => Except.error Panic.nilFunctionCall
      | some none =>
        Except.ok ((o.call (Call.Log LogLevel.Infof
          "Got %d/%s connect failure, refreshing CAT before reconnecting...")).call
            Call.RefreshCAT)
      | some (some err) =>
        Except.ok (((((o.call (Call.Log LogLevel.Infof
          "Got %d/%s connect failure, refreshing CAT before reconnecting...")).call
            Call.RefreshCAT).call (Call.Log LogLevel.Errorf "Failed to refresh CAT: %v")).call
            Call.expectDisconnect).go [Call.dispatchEvent (Event.CATRefreshError err)]) := by
  unfold connectFailureDispatch
  rw [if_neg (by simp [hlo]), if_neg hban, if_neg hout, if_pos hcat]
  rcases cli.RefreshCAT with _ | _ | err <;> rfl

/-- C4: when `handleConnectFailure` returns, expect-disconnect has been marked if and
only if the reason is none of ServiceUnavailable, InternalServerError, CATInvalid,
CATExpired, or the reason is a CAT reason and the credential refresh returned an
error (the CAT reasons being distinct from TempBanned and ClientOutdated and not
logged-out reasons). The handler does return unless the reason is a CAT reason and
no refresh callback is set. -/
theorem handleConnectFailure_expectDisconnect {N V J E : Type} (api : NodeAPI N V J)
    (rd : ReasonDecls) (w : World E) (cli : Client J E) (node : N)
    (hInvBan : rd.ConnectFailureCATInvalid ≠ rd.ConnectFailureTempBanned)
    (hInvOut : rd.ConnectFailureCATInvalid ≠ rd.ConnectFailureClientOutdated)
    (hExpBan : rd.ConnectFailureCATExpired ≠ rd.ConnectFailureTempBanned)
    (hExpOut : rd.ConnectFailureCATExpired ≠ rd.ConnectFailureClientOutdated)
    (hInvLoggedOut : rd.IsLoggedOut rd.ConnectFailureCATInvalid = false)
    (hExpLoggedOut : rd.IsLoggedOut rd.ConnectFailureCATExpired = false) :
    ((¬ isCATReason rd (api.Int node "reason") ∨ cli.RefreshCAT ≠ none) →
      ∃ out, handleConnectFailure api rd w cli node = Except.ok out) ∧
    ∀ out, handleConnectFailure api rd w cli node = Except.ok out →
      (out.markedExpectDisconnect ↔
        ((¬ isAutoReconnectReason rd (api.Int node "reason") ∧
            ¬ isCATReason rd (api.Int node "reason")) ∨
          (isCATReason rd (api.Int node "reason") ∧
            ∃ err, cli.RefreshCAT = some (some err)))) := by
  unfold handleConnectFailure Outcome.markedExpectDisconnect
  generalize api.Int node "reason" = reason
  generalize api.OptionalString node "message" = message
  have hfacts : isCATReason rd reason → rd.IsLoggedOut reason = false ∧
      reason ≠ rd.ConnectFailureTempBanned ∧ reason ≠ rd.ConnectFailureClientOutdated := by
    rintro (h | h) <;> rw [h] <;> exact ⟨by assumption, by assumption, by assumption⟩
  have hp : ∀ lvl fmt, Call.isExpectDisconnect (Call.Log lvl fmt : Call N J E) = false :=
    fun _ _ => rfl
  by_cases hcat : isCATReason rd reason
  · obtain ⟨hlo, hban, hout⟩ := hfacts hcat
    simp only [connectFailureDispatch_cat api rd w cli node reason message _ _ hcat hlo hban hout]
    by_cases hauto : isAutoReconnectReason rd reason <;>
    rcases cli.RefreshCAT with _ | _ | err <;>
    simp [-List.countP_eq_zero, connectFailureSwitch, hcat, hauto, runDeferred,
      countP_allCalls_call, countP_allCalls_go, countP_allCalls_log403, countP_allCalls_init,
      Call.isExpectDisconnect]
  · obtain ⟨out, hout, hcount⟩ :=
      connectFailureDispatch_expectDisconnect_of_not_cat api rd w cli node reason message
        (connectFailureSwitch rd reason (Outcome.mk cli [] [] : Outcome N J E)).2.1
        (if reason = 403 then
          (connectFailureSwitch rd reason (Outcome.mk cli [] [] : Outcome N J E)).1.call
            (Call.Log LogLevel.Debugf "Message for 403 connect failure: %s / %s")
         else (connectFailureSwitch rd reason (Outcome.mk cli [] [] : Outcome N J E)).1) hcat
    rw [countP_allCalls_log403 _ hp] at hcount
    by_cases hauto : isAutoReconnectReason rd reason
    · simp only [connectFailureSwitch, if_pos hauto] at hout hcount ⊢
      simp only [hout, runDeferred]
      simp [-List.countP_eq_zero, hcat, hauto, hcount, countP_allCalls_init]
    · simp only [connectFailureSwitch, if_neg hauto, if_neg hcat] at hout hcount ⊢
      simp only [hout, runDeferred]
      simp [-List.countP_eq_zero, hcat, hauto, hcount, countP_allCalls_init,
        countP_allCalls_call, Call.isExpectDisconnect]

/-- A connect failure with the reason CATExpired. -/
def nodeCATExpired : SampleNode :=
  SampleNode.mk "failure" [("reason", SampleValue.num 413)] []

/-- A client whose `RefreshCAT` callback is set and returns an error. -/
def clientRefreshFails : Client SampleJID String :=
  { sampleClient with RefreshCAT := some (some "token endpoint unreachable") }

theorem handleConnectFailure_expectDisconnect_witness :
    sampleReasons.ConnectFailureCATInvalid ≠ sampleReasons.ConnectFailureTempBanned ∧
    sampleReasons.ConnectFailureCATInvalid ≠ sampleReasons.ConnectFailureClientOutdated ∧
    sampleReasons.ConnectFailureCATExpired ≠ sampleReasons.ConnectFailureTempBanned ∧
    sampleReasons.ConnectFailureCATExpired ≠ sampleReasons.ConnectFailureClientOutdated ∧
    sampleReasons.IsLoggedOut sampleReasons.ConnectFailureCATInvalid = false ∧
    sampleReasons.IsLoggedOut sampleReasons.ConnectFailureCATExpired = false ∧
    ∃ out, handleConnectFailure sampleAPI sampleReasons sampleWorld clientRefreshFails
        nodeCATExpired = Except.ok out ∧ out.markedExpectDisconnect :=
  ⟨by decide, by decide, by decide, by decide, by decide, by decide,
   match (handleConnectFailure_expectDisconnect sampleAPI sampleReasons sampleWorld
      clientRefreshFails nodeCATExpired (by decide) (by decide) (by decide) (by decide)
      (by decide) (by decide)).1 (Or.inr (by decide)) with
   | ⟨out, hout⟩ =>
     ⟨out, hout,
      ((handleConnectFailure_expectDisconnect sampleAPI sampleReasons sampleWorld
        clientRefreshFails nodeCATExpired (by decide) (by decide) (by decide) (by decide)
        (by decide) (by decide)).2 out hout).mpr
        (Or.inr ⟨Or.inr (by decide), "token endpoint unreachable", rfl⟩)⟩⟩

/-- C5: a connect failure whose reason is a logged-out reason dispatches exactly the
one event `LoggedOut{OnConnect: true, Reason: reason}` with that reason and calls
`Store.Delete` exactly once, whatever `Store.Delete` returns; in particular it
dispatches no TemporaryBan, ClientOutdated, CATRefreshError or ConnectFailure
event, and the handler returns. -/
theorem handleConnectFailure_loggedOut {N V J E : Type} (api : NodeAPI N V J)
    (rd : ReasonDecls) (w : World E) (cli : Client J E) (node : N)
    (hlo : rd.IsLoggedOut (api.Int node "reason") = true) :
    ∃ out, handleConnectFailure api rd w cli node = Except.ok out ∧
      out.events = [Event.LoggedOut true (api.Int node "reason")] ∧
      out.allCalls.countP Call.isStoreDelete = 1 := by
  unfold handleConnectFailure
  generalize api.Int node "reason" = reason at hlo ⊢
  by_cases hauto : isAutoReconnectReason rd reason <;>
  by_cases hcat : isCATReason rd reason <;>
  cases hd : w.StoreDelete <;>
  simp [-List.countP_eq_zero, connectFailureSwitch, connectFailureDispatch, hlo, hauto, hcat,
    hd, runDeferred, events_call, events_go, events_init, events_log403, eventsOf,
    countP_allCalls_call, countP_allCalls_go, countP_allCalls_init, countP_allCalls_log403,
    Call.isStoreDelete, Call.isDispatchEvent]

/-- A connect failure with reason 403 (a logged-out reason). -/
def nodeReason403 : SampleNode :=
  SampleNode.mk "failure" [("reason", SampleValue.num 403)] []

theorem handleConnectFailure_loggedOut_witness :
    sampleReasons.IsLoggedOut (sampleAPI.Int nodeReason403 "reason") = true ∧
    ∃ out, handleConnectFailure sampleAPI sampleReasons worldDeleteFails sampleClient
        nodeReason403 = Except.ok out ∧
      out.events = [Event.LoggedOut true 403] ∧
      out.allCalls.countP Call.isStoreDelete = 1 :=
  ⟨by decide,
   handleConnectFailure_loggedOut sampleAPI sampleReasons worldDeleteFails sampleClient
     nodeReason403 (by decide)⟩

/-- Within the range of seconds whose nanosecond count fits in 64 bits, the
conversion to a duration multiplies by 10^9. -/
theorem secondsToDuration_exact (n : Int) (hlow : -9223372036 ≤ n) (hhigh : n ≤ 9223372036) :
    secondsToDuration n = n * 1000000000 := by
  unfold secondsToDuration wrapInt64 Second
  norm_num
  omega

/-- C6 (amended): a connect failure whose reason is TempBanned (and not a logged-out
reason), with integer attributes code = c and expire = e, dispatches exactly the one
event `TemporaryBan{Code: c, Expire: d}` where d is e × 10^9 nanoseconds wrapped to
signed 64 bits; d is exactly e seconds whenever -9223372036 ≤ e ≤ 9223372036. -/
theorem handleConnectFailure_tempBanned {N V J E : Type} (api : NodeAPI N V J)
    (rd : ReasonDecls) (w : World E) (cli : Client J E) (node : N)
    (hban : api.Int node "reason" = rd.ConnectFailureTempBanned)
    (hlo : rd.IsLoggedOut (api.Int node "reason") = false) :
    (∃ out, handleConnectFailure api rd w cli node = Except.ok out ∧
      out.events = [Event.TemporaryBan (api.Int node "code")
        (wrapInt64 (wrapInt64 (api.Int node "expire") * 1000000000))]) ∧
    (-9223372036 ≤ api.Int node "expire" → api.Int node "expire" ≤ 9223372036 →
      wrapInt64 (wrapInt64 (api.Int node "expire") * 1000000000) =
        api.Int node "expire" * 1000000000) := by
  refine ⟨?_, fun hlow hhigh => secondsToDuration_exact _ hlow hhigh⟩
  unfold handleConnectFailure
  generalize api.Int node "reason" = reason at hlo hban ⊢
  by_cases hauto : isAutoReconnectReason rd reason <;>
  by_cases hcat : isCATReason rd reason <;>
  simp [connectFailureSwitch, connectFailureDispatch, hlo, hauto, hcat, ← hban,
    runDeferred, events_call, events_go, events_init, events_log403, eventsOf,
    Call.isDispatchEvent, secondsToDuration, Second]

/-- The temporary ban of the spec scenario: code 5, expiring in 3600 seconds. -/
def nodeTempBan : SampleNode :=
  SampleNode.mk "failure"
    [("reason", SampleValue.num 402), ("code", SampleValue.num 5),
     ("expire", SampleValue.num 3600)] []

theorem handleConnectFailure_tempBanned_witness :
    sampleAPI.Int nodeTempBan "reason" = sampleReasons.ConnectFailureTempBanned ∧
    sampleReasons.IsLoggedOut (sampleAPI.Int nodeTempBan "reason") = false ∧
    (∃ out, handleConnectFailure sampleAPI sampleReasons sampleWorld sampleClient
        nodeTempBan = Except.ok out ∧
      out.events = [Event.TemporaryBan 5 (wrapInt64 (wrapInt64 3600 * 1000000000))]) ∧
    wrapInt64 (wrapInt64 3600 * 1000000000) = 3600 * 1000000000 :=
  ⟨by decide, by decide,
   (handleConnectFailure_tempBanned sampleAPI sampleReasons sampleWorld sampleClient
     nodeTempBan (by decide) (by decide)).1,
   (handleConnectFailure_tempBanned sampleAPI sampleReasons sampleWorld sampleClient
     nodeTempBan (by decide) (by decide)).2 (by decide) (by decide)⟩

/-- A temporary ban whose expiry, 9223372037 seconds, is more nanoseconds than a
64-bit duration holds. -/
def nodeTempBanLong : SampleNode :=
  SampleNode.mk "failure"
    [("reason", SampleValue.num 402), ("code", SampleValue.num 5),
     ("expire", SampleValue.num 9223372037)] []

/-- C6 fails as stated: for expire = 9223372037 the event carries the negative
duration -9223372036709551616 ns, not 9223372037 seconds. -/
theorem handleConnectFailure_tempBanned_overflow :
    sampleAPI.Int nodeTempBanLong "reason" = sampleReasons.ConnectFailureTempBanned ∧
    sampleReasons.IsLoggedOut (sampleAPI.Int nodeTempBanLong "reason") = false ∧
    sampleAPI.Int nodeTempBanLong "code" = 5 ∧
    sampleAPI.Int nodeTempBanLong "expire" = 9223372037 ∧
    (∃ out, handleConnectFailure sampleAPI sampleReasons sampleWorld sampleClient
        nodeTempBanLong = Except.ok out ∧
      out.events = [Event.TemporaryBan 5 (-9223372036709551616)]) ∧
    (-9223372036709551616 : Int) ≠ 9223372037 * 1000000000 :=
  ⟨by decide, by decide, by decide, by decide, ⟨_, rfl, rfl⟩, by decide⟩

/-! ## Connect success: LID reconciliation -/

/-- The goroutine of `handleConnectSuccess` makes only pre-key calls, `sendIQ`,
`dispatchEvent`, `closeSocketWaitChan` and log calls: a predicate false on all of
these counts nothing in it. -/
theorem countP_connectSuccessTask {N V J E : Type} (api : NodeAPI N V J) (td : TypeDecls J)
    (w : World E) (p : Call N J E → Bool)
    (h1 : p Call.UploadedPreKeyCount = false) (h2 : p Call.getServerPreKeyCount = false)
    (h3 : p Call.uploadPreKeys = false) (h4 : ∀ q, p (Call.sendIQ q) = false)
    (h5 : ∀ evt, p (Call.dispatchEvent evt) = false)
    (h6 : p Call.closeSocketWaitChan = false) (h7 : ∀ lvl fmt, p (Call.Log lvl fmt) = false) :
    (connectSuccessTask api td w).countP p = 0 := by
  unfold connectSuccessTask preKeyCheck postConnect SetPassive
  rcases w.UploadedPreKeyCount with ⟨dbCount, _ | _⟩ <;>
  rcases w.getServerPreKeyCount with ⟨serverCount, _ | _⟩ <;>
  cases w.sendIQ <;>
  by_cases hlow : serverCount < td.MinPreKeyCount ∨ dbCount < td.MinPreKeyCount <;>
  simp [-List.countP_eq_zero, List.countP_cons, List.countP_append, hlow, h1, h2, h3, h4,
    h5, h6, h7]

/-- What the LID reconciliation leaves alone: the goroutines, every client field
but the stored LID, and the calls made so far; the calls it adds are log calls and
`Store.Save`. -/
theorem reconcileLID_frame {N J E : Type} [DecidableEq J] (td : TypeDecls J) (w : World E)
    (nodeLID : J) (o : Outcome N J E) :
    (reconcileLID td w nodeLID o).tasks = o.tasks ∧
    (reconcileLID td w nodeLID o).cli.Store.ID = o.cli.Store.ID ∧
    (reconcileLID td w nodeLID o).cli.isLoggedIn = o.cli.isLoggedIn ∧
    (reconcileLID td w nodeLID o).cli.AutoReconnectErrors = o.cli.AutoReconnectErrors ∧
    ∃ added, (reconcileLID td w nodeLID o).calls = o.calls ++ added ∧
      ∀ c ∈ added, c.isLog = true ∨ c = Call.StoreSave := by
  unfold reconcileLID
  dsimp only
  split_ifs <;> cases w.StoreSave <;> simp [Outcome.call, Call.isLog]

/-- The LID reconciliation changes the count of no call other than a log call or
`Store.Save`. -/
theorem countP_reconcileLID {N J E : Type} [DecidableEq J] (td : TypeDecls J) (w : World E)
    (nodeLID : J) (o : Outcome N J E) (p : Call N J E → Bool)
    (hlog : ∀ lvl fmt, p (Call.Log lvl fmt) = false) (hsave : p Call.StoreSave = false) :
    (reconcileLID td w nodeLID o).allCalls.countP p = o.allCalls.countP p := by
  obtain ⟨htasks, -, -, -, added, hcalls, hadded⟩ := reconcileLID_frame td w nodeLID o
  have hzero : added.countP p = 0 := by
    rw [List.countP_eq_zero]
    intro c hc
    rcases hadded c hc with h | h
    · obtain ⟨lvl, fmt, rfl⟩ := eq_Log_of_isLog c h
      simp [hlog]
    · simp [h, hsave]
  simp only [Outcome.allCalls, htasks, hcalls, List.countP_append, hzero]
  omega

/-- C7 (amended): when the stored LID and the node's lid are both non-empty and
differ, the stored LID after `handleConnectSuccess` equals the node's lid: the
handler clears the stored value and, the stored value then being empty, adopts the
server-supplied one and calls `Store.Save` once (`EmptyJID` being empty). -/
theorem handleConnectSuccess_lid_mismatch {N V J E : Type} [DecidableEq J]
    (api : NodeAPI N V J) (td : TypeDecls J) (w : World E) (cli : Client J E) (node : N)
    (hempty : td.IsEmpty td.EmptyJID = true)
    (hstored : td.IsEmpty cli.Store.LID = false)
    (hnode : td.IsEmpty (api.JID node "lid") = false)
    (hne : cli.Store.LID ≠ api.JID node "lid") :
    (handleConnectSuccess api td w cli node).cli.Store.LID = api.JID node "lid" ∧
    (handleConnectSuccess api td w cli node).allCalls.countP Call.isStoreSave = 1 := by
  unfold handleConnectSuccess
  constructor
  · cases hs : w.StoreSave <;>
      simp [reconcileLID, hempty, hstored, hnode, hne, hs, Outcome.call, Outcome.go]
  · simp only [countP_allCalls_go, countP_allCalls_call]
    rw [countP_connectSuccessTask api td w Call.isStoreSave rfl rfl rfl (fun _ => rfl)
      (fun _ => rfl) rfl (fun _ _ => rfl)]
    cases hs : w.StoreSave <;>
      simp [-List.countP_eq_zero, reconcileLID, hempty, hstored, hnode, hne, hs,
        Outcome.call, Outcome.allCalls, List.countP_cons, Call.isStoreSave,
        Call.isStoreLIDPNMapping]

/-- A client whose store holds the LID 111@lid. -/
def clientWithLID : Client SampleJID String :=
  { sampleClient with
    Store := { ID := { User := "1555", Server := "s.whatsapp.net" },
               LID := { User := "111", Server := "lid" } } }

/-- A connect-success node carrying the LID 222@lid. -/
def nodeSuccessLID : SampleNode :=
  SampleNode.mk "success" [("lid", SampleValue.jid { User := "222", Server := "lid" })] []

theorem handleConnectSuccess_lid_mismatch_witness :
    sampleTypes.IsEmpty sampleTypes.EmptyJID = true ∧
    sampleTypes.IsEmpty clientWithLID.Store.LID = false ∧
    sampleTypes.IsEmpty (sampleAPI.JID nodeSuccessLID "lid") = false ∧
    clientWithLID.Store.LID ≠ sampleAPI.JID nodeSuccessLID "lid" ∧
    (handleConnectSuccess sampleAPI sampleTypes sampleWorld clientWithLID
      nodeSuccessLID).cli.Store.LID = { User := "222", Server := "lid" } :=
  ⟨by decide, by decide, by decide, by decide,
   (handleConnectSuccess_lid_mismatch sampleAPI sampleTypes sampleWorld clientWithLID
     nodeSuccessLID (by decide) (by decide) (by decide) (by decide)).1⟩

/-- C7 fails as stated: with the stored LID 111@lid and the node's lid 222@lid, both
non-empty and different, the stored LID after `handleConnectSuccess` is 222@lid, not
the empty JID. -/
theorem handleConnectSuccess_lid_mismatch_not_cleared :
    sampleTypes.IsEmpty clientWithLID.Store.LID = false ∧
    sampleTypes.IsEmpty (sampleAPI.JID nodeSuccessLID "lid") = false ∧
    clientWithLID.Store.LID ≠ sampleAPI.JID nodeSuccessLID "lid" ∧
    (handleConnectSuccess sampleAPI sampleTypes sampleWorld clientWithLID
      nodeSuccessLID).cli.Store.LID ≠ sampleTypes.EmptyJID :=
  ⟨by decide, by decide, by decide, by decide⟩

/-- C8: if the stored LID is empty and the node's lid is not, `handleConnectSuccess`
sets the stored LID to the node's lid and calls `Store.Save` exactly once; if the
node's lid is empty the stored LID is unchanged and `Store.Save` is not called; and
in every case `StoreLIDPNMapping` is called exactly once, as the last call of the
handler itself (so after the reconciliation and any `Store.Save`), with the
resulting stored LID and the stored JID. -/
theorem handleConnectSuccess_lid_adopt {N V J E : Type} [DecidableEq J]
    (api : NodeAPI N V J) (td : TypeDecls J) (w : World E) (cli : Client J E) (node : N) :
    (td.IsEmpty cli.Store.LID = true → td.IsEmpty (api.JID node "lid") = false →
      (handleConnectSuccess api td w cli node).cli.Store.LID = api.JID node "lid" ∧
      (handleConnectSuccess api td w cli node).allCalls.countP Call.isStoreSave = 1) ∧
    (td.IsEmpty (api.JID node "lid") = true →
      (handleConnectSuccess api td w cli node).cli.Store.LID = cli.Store.LID ∧
      (handleConnectSuccess api td w cli node).allCalls.countP Call.isStoreSave = 0) ∧
    (handleConnectSuccess api td w cli node).allCalls.countP Call.isStoreLIDPNMapping = 1 ∧
    (∃ before, (handleConnectSuccess api td w cli node).calls = before ++
      [Call.StoreLIDPNMapping (handleConnectSuccess api td w cli node).cli.Store.LID
        (handleConnectSuccess api td w cli node).cli.Store.ID]) ∧
    (handleConnectSuccess api td w cli node).cli.Store.ID = cli.Store.ID := by
  have htask := countP_connectSuccessTask api td w (Call.isStoreSave : Call N J E → Bool)
    rfl rfl rfl (fun _ => rfl) (fun _ => rfl) rfl (fun _ _ => rfl)
  have htask2 := countP_connectSuccessTask api td w
    (Call.isStoreLIDPNMapping : Call N J E → Bool)
    rfl rfl rfl (fun _ => rfl) (fun _ => rfl) rfl (fun _ _ => rfl)
  obtain ⟨-, hid, -, -, -⟩ := reconcileLID_frame td w (api.JID node "lid")
    ({ cli := { cli with
          LastSuccessfulConnect := w.Now, AutoReconnectErrors := 0, isLoggedIn := true },
       calls := [Call.Log LogLevel.Infof "Successfully authenticated"],
       tasks := [] } : Outcome N J E)
  unfold handleConnectSuccess
  simp only [countP_allCalls_go, countP_allCalls_call, htask, htask2]
  refine ⟨?_, ?_, ?_, ⟨_, rfl⟩, ?_⟩
  · intro hstored hnode
    cases hs : w.StoreSave <;>
      simp [-List.countP_eq_zero, reconcileLID, hstored, hnode, hs, Outcome.call, Outcome.go,
        Outcome.allCalls, List.countP_cons, Call.isStoreSave, Call.isStoreLIDPNMapping]
  · intro hnode
    simp [-List.countP_eq_zero, reconcileLID, hnode, Outcome.call, Outcome.go,
        Outcome.allCalls, List.countP_cons, Call.isStoreSave, Call.isStoreLIDPNMapping]
  · rw [countP_reconcileLID td w _ _ Call.isStoreLIDPNMapping (fun _ _ => rfl) rfl]
    simp [-List.countP_eq_zero, Outcome.allCalls, List.countP_cons, Call.isStoreLIDPNMapping]
  · simpa [Outcome.call, Outcome.go] using hid

/-- The connect-success node of the spec scenario, with the LID 222@lid, handled by
a client whose stored LID is empty. -/
theorem handleConnectSuccess_lid_adopt_witness :
    sampleTypes.IsEmpty sampleClient.Store.LID = true ∧
    sampleTypes.IsEmpty (sampleAPI.JID nodeSuccessLID "lid") = false ∧
    (handleConnectSuccess sampleAPI sampleTypes sampleWorld sampleClient
      nodeSuccessLID).cli.Store.LID = { User := "222", Server := "lid" } ∧
    (handleConnectSuccess sampleAPI sampleTypes sampleWorld sampleClient
      nodeSuccessLID).allCalls.countP Call.isStoreSave = 1 :=
  ⟨by decide, by decide,
   (handleConnectSuccess_lid_adopt sampleAPI sampleTypes sampleWorld sampleClient
     nodeSuccessLID).1 (by decide) (by decide)⟩

/-! ## Connect success: the background task -/

/-- The LID reconciliation dispatches no event. -/
theorem events_reconcileLID {N J E : Type} [DecidableEq J] (td : TypeDecls J) (w : World E)
    (nodeLID : J) (o : Outcome N J E) :
    (reconcileLID td w nodeLID o).events = o.events := by
  obtain ⟨htasks, -, -, -, added, hcalls, hadded⟩ := reconcileLID_frame td w nodeLID o
  have hnone : eventsOf added = [] := by
    clear hcalls
    induction added with
    | nil => rfl
    | cons c rest ih =>
      have hrest : eventsOf rest = [] :=
        ih (fun d hd => hadded d (List.mem_cons_of_mem _ hd))
      rcases hadded c (List.mem_cons_self _ _) with h | h
      · obtain ⟨lvl, fmt, rfl⟩ := eq_Log_of_isLog c h
        exact hrest
      · subst h
        exact hrest
  simp only [Outcome.events, Outcome.allCalls, htasks, hcalls, eventsOf_append, hnone,
    List.append_nil]

/-- The handler of a connect success starts exactly one goroutine. -/
theorem handleConnectSuccess_tasks {N V J E : Type} [DecidableEq J]
    (api : NodeAPI N V J) (td : TypeDecls J) (w : World E) (cli : Client J E) (node : N) :
    (handleConnectSuccess api td w cli node).tasks = [connectSuccessTask api td w] := by
  unfold handleConnectSuccess
  simp [Outcome.go, Outcome.call, (reconcileLID_frame td w _ _).1]

/-- The calls of `handleConnectSuccess` itself are log calls, `Store.Save` and
`StoreLIDPNMapping`: any other call of the run is made by its goroutine. -/
theorem countP_handleConnectSuccess {N V J E : Type} [DecidableEq J]
    (api : NodeAPI N V J) (td : TypeDecls J) (w : World E) (cli : Client J E) (node : N)
    (p : Call N J E → Bool) (hlog : ∀ lvl fmt, p (Call.Log lvl fmt) = false)
    (hsave : p Call.StoreSave = false) (hmap : ∀ lid pn, p (Call.StoreLIDPNMapping lid pn) = false) :
    (handleConnectSuccess api td w cli node).allCalls.countP p =
      (connectSuccessTask api td w).countP p := by
  unfold handleConnectSuccess
  simp only [countP_allCalls_go, countP_allCalls_call, hmap]
  rw [countP_reconcileLID td w _ _ p hlog hsave]
  simp [-List.countP_eq_zero, Outcome.allCalls, List.countP_cons, hlog]

/-- The pre-key part of the goroutine dispatches no event. -/
theorem eventsOf_preKeyCheck {N J E : Type} (td : TypeDecls J) (w : World E) :
    eventsOf (preKeyCheck td w : List (Call N J E)) = [] := by
  unfold preKeyCheck
  rcases w.UploadedPreKeyCount with ⟨dbCount, _ | _⟩ <;>
  rcases w.getServerPreKeyCount with ⟨serverCount, _ | _⟩ <;>
  by_cases hlow : serverCount < td.MinPreKeyCount ∨ dbCount < td.MinPreKeyCount <;>
  simp [hlow, eventsOf]

/-- The end of the goroutine is the `sendIQ` of `SetPassive(ctx, false)`, then at
most log calls, then the `Connected` event, then `closeSocketWaitChan`. -/
theorem postConnect_eq {N V J E : Type} (api : NodeAPI N V J) (td : TypeDecls J)
    (w : World E) :
    ∃ logs : List (Call N J E),
      postConnect api td w =
        (SetPassive api td w false).1 ++ logs ++
          [Call.dispatchEvent Event.Connected, Call.closeSocketWaitChan] ∧
      (SetPassive api td w false).1 =
        [Call.sendIQ { Namespace := "passive", IQType := "set", To := td.ServerJID,
                       Content := [api.NodeWithTag "active"] }] ∧
      ∀ c ∈ logs, c.isLog = true := by
  unfold postConnect SetPassive
  cases w.sendIQ
  · exact ⟨[], by simp, by simp, by simp⟩
  · exact ⟨[Call.Log LogLevel.Warnf "Failed to send post-connect passive IQ: %v"],
      by simp, by simp, by simp [Call.isLog]⟩

/-- The end of the goroutine dispatches exactly the `Connected` event. -/
theorem eventsOf_postConnect {N V J E : Type} (api : NodeAPI N V J) (td : TypeDecls J)
    (w : World E) :
    eventsOf (postConnect api td w : List (Call N J E)) = [Event.Connected] := by
  obtain ⟨logs, heq, hiq, hlogs⟩ := postConnect_eq (E := E) api td w
  rw [heq, hiq, eventsOf_append, eventsOf_append, eventsOf_logs logs hlogs]
  rfl

/-- C9: in the goroutine started by `handleConnectSuccess`, when both pre-key counts
were obtained without error, `uploadPreKeys` is called exactly once if the server
count or the database count is below `MinPreKeyCount`, before the `Connected` event
is dispatched, and not at all otherwise; when either count could not be obtained it
is not called. -/
theorem handleConnectSuccess_uploadPreKeys {N V J E : Type} [DecidableEq J]
    (api : NodeAPI N V J) (td : TypeDecls J) (w : World E) (cli : Client J E) (node : N) :
    ∃ task, (handleConnectSuccess api td w cli node).tasks = [task] ∧
      (∀ dbCount serverCount, w.UploadedPreKeyCount = (dbCount, none) →
        w.getServerPreKeyCount = (serverCount, none) →
        ((serverCount < td.MinPreKeyCount ∨ dbCount < td.MinPreKeyCount) →
          (handleConnectSuccess api td w cli node).allCalls.countP Call.isUploadPreKeys = 1 ∧
          ∃ pre post, task = pre ++ Call.uploadPreKeys :: post ∧
            eventsOf pre = [] ∧ eventsOf post = [Event.Connected]) ∧
        (¬ (serverCount < td.MinPreKeyCount ∨ dbCount < td.MinPreKeyCount) →
          (handleConnectSuccess api td w cli node).allCalls.countP Call.isUploadPreKeys = 0)) ∧
      ((w.UploadedPreKeyCount.2 ≠ none ∨ w.getServerPreKeyCount.2 ≠ none) →
        (handleConnectSuccess api td w cli node).allCalls.countP Call.isUploadPreKeys = 0) := by
  refine ⟨connectSuccessTask api td w, handleConnectSuccess_tasks api td w cli node, ?_, ?_⟩
  · intro dbCount serverCount hdb hserver
    rw [countP_handleConnectSuccess api td w cli node Call.isUploadPreKeys (fun _ _ => rfl) rfl
      (fun _ _ => rfl)]
    have hpost : (postConnect api td w : List (Call N J E)).countP Call.isUploadPreKeys = 0 := by
      obtain ⟨logs, heq, hiq, hlogs⟩ := postConnect_eq (E := E) api td w
      rw [heq, hiq, List.countP_append, List.countP_append,
        countP_logs Call.isUploadPreKeys (fun _ _ => rfl) logs hlogs]
      rfl
    unfold connectSuccessTask
    rw [List.countP_append, hpost]
    unfold preKeyCheck
    refine ⟨fun hlow => ⟨?_, ?_⟩, fun hlow => ?_⟩
    · simp [-List.countP_eq_zero, hdb, hserver, hlow, List.countP_cons,
        List.countP_append, Call.isUploadPreKeys]
    · refine ⟨[Call.UploadedPreKeyCount, Call.getServerPreKeyCount,
          Call.Log LogLevel.Debugf "Database has %d prekeys, server says we have %d"],
        [Call.getServerPreKeyCount, Call.Log LogLevel.Debugf "Prekey count after upload: %d"]
          ++ postConnect api td w, ?_, rfl, ?_⟩
      · simp [hdb, hserver, hlow]
      · rw [eventsOf_append, eventsOf_postConnect]
        rfl
    · simp [-List.countP_eq_zero, hdb, hserver, hlow, List.countP_cons,
        List.countP_append, Call.isUploadPreKeys]
  · intro herr
    rw [countP_handleConnectSuccess api td w cli node Call.isUploadPreKeys (fun _ _ => rfl) rfl
      (fun _ _ => rfl)]
    have hpost : (postConnect api td w : List (Call N J E)).countP Call.isUploadPreKeys = 0 := by
      obtain ⟨logs, heq, hiq, hlogs⟩ := postConnect_eq (E := E) api td w
      rw [heq, hiq, List.countP_append, List.countP_append,
        countP_logs Call.isUploadPreKeys (fun _ _ => rfl) logs hlogs]
      rfl
    unfold connectSuccessTask
    rw [List.countP_append, hpost]
    unfold preKeyCheck
    rcases hdb : w.UploadedPreKeyCount with ⟨dbCount, _ | dbErr⟩ <;>
    rcases hserver : w.getServerPreKeyCount with ⟨serverCount, _ | serverErr⟩ <;>
    simp [-List.countP_eq_zero, hdb, hserver, List.countP_cons,
      List.countP_append, Call.isUploadPreKeys] at herr ⊢

/-- A world in which the database holds 2 pre-keys and the server reports 3, both
below the threshold of 5. -/
def worldFewPreKeys : World String :=
  { sampleWorld with UploadedPreKeyCount := (2, none), getServerPreKeyCount := (3, none) }

theorem handleConnectSuccess_uploadPreKeys_witness :
    (handleConnectSuccess sampleAPI sampleTypes worldFewPreKeys sampleClient
      nodeSuccessLID).allCalls.countP Call.isUploadPreKeys = 1 :=
  match handleConnectSuccess_uploadPreKeys sampleAPI sampleTypes worldFewPreKeys sampleClient
    nodeSuccessLID with
  | ⟨_, _, h, _⟩ => ((h 2 3 rfl rfl).1 (by decide)).1

/-- The pre-key part of the goroutine makes only pre-key calls and log calls. -/
theorem countP_preKeyCheck {N J E : Type} (td : TypeDecls J) (w : World E)
    (p : Call N J E → Bool)
    (h1 : p Call.UploadedPreKeyCount = false) (h2 : p Call.getServerPreKeyCount = false)
    (h3 : p Call.uploadPreKeys = false) (h4 : ∀ lvl fmt, p (Call.Log lvl fmt) = false) :
    (preKeyCheck td w).countP p = 0 := by
  unfold preKeyCheck
  rcases w.UploadedPreKeyCount with ⟨dbCount, _ | _⟩ <;>
  rcases w.getServerPreKeyCount with ⟨serverCount, _ | _⟩ <;>
  by_cases hlow : serverCount < td.MinPreKeyCount ∨ dbCount < td.MinPreKeyCount <;>
  simp [-List.countP_eq_zero, List.countP_cons, List.countP_append, hlow, h1, h2, h3, h4]

/-- The events of a connect-success run are those dispatched by its goroutine. -/
theorem events_handleConnectSuccess {N V J E : Type} [DecidableEq J]
    (api : NodeAPI N V J) (td : TypeDecls J) (w : World E) (cli : Client J E) (node : N) :
    (handleConnectSuccess api td w cli node).events =
      eventsOf (connectSuccessTask api td w) := by
  unfold handleConnectSuccess
  simp only [events_go]
  rw [events_call _ (Call.StoreLIDPNMapping _ _) rfl, events_reconcileLID]
  rfl

/-- C10: whatever the collaborators return, the goroutine of `handleConnectSuccess`
ends with the `sendIQ` of `SetPassive(ctx, false)`, then at most log calls, then the
`Connected` event, then `closeSocketWaitChan`; nothing before that in the goroutine
sends an IQ, dispatches an event or closes the wait channel, and in the whole run
there is exactly one `sendIQ`, exactly the one event `Connected`, and exactly one
`closeSocketWaitChan`. -/
theorem handleConnectSuccess_connected {N V J E : Type} [DecidableEq J]
    (api : NodeAPI N V J) (td : TypeDecls J) (w : World E) (cli : Client J E) (node : N) :
    ∃ before logs : List (Call N J E),
      (handleConnectSuccess api td w cli node).tasks =
        [before ++ (SetPassive api td w false).1 ++ logs ++
          [Call.dispatchEvent Event.Connected, Call.closeSocketWaitChan]] ∧
      (SetPassive api td w false).1 =
        [Call.sendIQ { Namespace := "passive", IQType := "set", To := td.ServerJID,
                       Content := [api.NodeWithTag "active"] }] ∧
      before.countP Call.isSendIQ = 0 ∧ eventsOf before = [] ∧
      before.countP Call.isCloseSocketWaitChan = 0 ∧
      (∀ c ∈ logs, c.isLog = true) ∧
      (handleConnectSuccess api td w cli node).allCalls.countP Call.isSendIQ = 1 ∧
      (handleConnectSuccess api td w cli node).events = [Event.Connected] ∧
      (handleConnectSuccess api td w cli node).allCalls.countP Call.isCloseSocketWaitChan = 1 := by
  obtain ⟨logs, heq, hiq, hlogs⟩ := postConnect_eq (E := E) api td w
  have hpre1 := countP_preKeyCheck (N := N) (E := E) td w Call.isSendIQ rfl rfl rfl
    (fun _ _ => rfl)
  have hpre2 := countP_preKeyCheck (N := N) (E := E) td w Call.isCloseSocketWaitChan rfl rfl
    rfl (fun _ _ => rfl)
  refine ⟨preKeyCheck td w, logs, ?_, hiq, hpre1, eventsOf_preKeyCheck td w, hpre2, hlogs,
    ?_, ?_, ?_⟩
  · rw [handleConnectSuccess_tasks, connectSuccessTask, heq]
    simp only [List.append_assoc]
  · rw [countP_handleConnectSuccess api td w cli node Call.isSendIQ (fun _ _ => rfl) rfl
      (fun _ _ => rfl), connectSuccessTask, List.countP_append, hpre1, heq, hiq,
      List.countP_append, List.countP_append,
      countP_logs Call.isSendIQ (fun _ _ => rfl) logs hlogs]
    rfl
  · rw [events_handleConnectSuccess, connectSuccessTask, eventsOf_append,
      eventsOf_preKeyCheck, eventsOf_postConnect]
    rfl
  · rw [countP_handleConnectSuccess api td w cli node Call.isCloseSocketWaitChan
      (fun _ _ => rfl) rfl (fun _ _ => rfl), connectSuccessTask, List.countP_append, hpre2,
      heq, hiq, List.countP_append, List.countP_append,
      countP_logs Call.isCloseSocketWaitChan (fun _ _ => rfl) logs hlogs]
    rfl

/-! ## Stream errors: credential refresh, replaced and 503 -/

/-- C11: a stream error whose code is the number string of CATInvalid or CATExpired,
whose conflict type is not "replaced", handled with a `RefreshCAT` callback set,
calls `RefreshCAT` exactly once. If it returns an error, expect-disconnect is marked
and exactly the one event `CATRefreshError{Error: err}` with that error is
dispatched; if it returns nil, no event is dispatched and expect-disconnect is not
marked. `Store.Delete` is not called and no `StreamError` event is dispatched (the
two number strings being none of "515", "401", "503"). -/
theorem handleStreamError_refreshCAT {N V J E : Type} (api : NodeAPI N V J)
    (rd : ReasonDecls) (w : World E) (cli : Client J E) (node : N) (result : Option E)
    (hinv : rd.NumberString rd.ConnectFailureCATInvalid ≠ "515" ∧
      rd.NumberString rd.ConnectFailureCATInvalid ≠ "401" ∧
      rd.NumberString rd.ConnectFailureCATInvalid ≠ "503")
    (hexp : rd.NumberString rd.ConnectFailureCATExpired ≠ "515" ∧
      rd.NumberString rd.ConnectFailureCATExpired ≠ "401" ∧
      rd.NumberString rd.ConnectFailureCATExpired ≠ "503")
    (hcode : streamErrorCode api node = rd.NumberString rd.ConnectFailureCATInvalid ∨
      streamErrorCode api node = rd.NumberString rd.ConnectFailureCATExpired)
    (hreplaced : streamErrorConflictType api node ≠ "replaced")
    (hcallback : cli.RefreshCAT = some result) :
    (handleStreamError api rd w cli node).allCalls.countP Call.isRefreshCAT = 1 ∧
    (∀ err, result = some err →
      (handleStreamError api rd w cli node).markedExpectDisconnect ∧
      (handleStreamError api rd w cli node).events = [Event.CATRefreshError err]) ∧
    (result = none →
      (handleStreamError api rd w cli node).events = [] ∧
      ¬ (handleStreamError api rd w cli node).markedExpectDisconnect) ∧
    (handleStreamError api rd w cli node).allCalls.countP Call.isStoreDelete = 0 := by
  have h515 : streamErrorCode api node ≠ "515" := by
    rcases hcode with h | h <;> rw [h]
    · exact hinv.1
    · exact hexp.1
  have h401 : streamErrorCode api node ≠ "401" := by
    rcases hcode with h | h <;> rw [h]
    · exact hinv.2.1
    · exact hexp.2.1
  have h503 : streamErrorCode api node ≠ "503" := by
    rcases hcode with h | h <;> rw [h]
    · exact hinv.2.2
    · exact hexp.2.2
  unfold handleStreamError Outcome.markedExpectDisconnect
  simp only [if_neg h515, if_neg hreplaced, if_neg h503, h401, false_and, if_false,
    hcallback, Option.isSome_some, true_and, if_pos hcode]
  cases result <;>
    simp [Outcome.call, Outcome.go, Outcome.allCalls, Outcome.events, eventsOf,
      List.countP_cons, Call.isRefreshCAT, Call.isStoreDelete, Call.isExpectDisconnect]

/-- A stream error whose code is the number string of CATExpired. -/
def nodeStreamCATExpired : SampleNode :=
  SampleNode.mk "stream:error" [("code", SampleValue.str "413")] []

theorem handleStreamError_refreshCAT_witness :
    (sampleReasons.NumberString sampleReasons.ConnectFailureCATInvalid ≠ "515" ∧
      sampleReasons.NumberString sampleReasons.ConnectFailureCATInvalid ≠ "401" ∧
      sampleReasons.NumberString sampleReasons.ConnectFailureCATInvalid ≠ "503") ∧
    (sampleReasons.NumberString sampleReasons.ConnectFailureCATExpired ≠ "515" ∧
      sampleReasons.NumberString sampleReasons.ConnectFailureCATExpired ≠ "401" ∧
      sampleReasons.NumberString sampleReasons.ConnectFailureCATExpired ≠ "503") ∧
    streamErrorCode sampleAPI nodeStreamCATExpired =
      sampleReasons.NumberString sampleReasons.ConnectFailureCATExpired ∧
    streamErrorConflictType sampleAPI nodeStreamCATExpired ≠ "replaced" ∧
    clientRefreshFails.RefreshCAT = some (some "token endpoint unreachable") ∧
    (handleStreamError sampleAPI sampleReasons sampleWorld clientRefreshFails
      nodeStreamCATExpired).events = [Event.CATRefreshError "token endpoint unreachable"] :=
  ⟨by decide, by decide, by decide, by decide, rfl,
   ((handleStreamError_refreshCAT sampleAPI sampleReasons sampleWorld clientRefreshFails
      nodeStreamCATExpired (some "token endpoint unreachable") (by decide) (by decide)
      (Or.inr (by decide)) (by decide) rfl).2.1 "token endpoint unreachable" rfl).2⟩

/-- C12: a stream error whose conflict type is "replaced" and whose code is not
"515" marks expect-disconnect and dispatches exactly the one event `StreamReplaced`;
it calls neither `Store.Delete` nor `RefreshCAT` and starts no reconnect, whatever
the code (also "503", "401" or a CAT code with a callback set). -/
theorem handleStreamError_replaced {N V J E : Type} (api : NodeAPI N V J)
    (rd : ReasonDecls) (w : World E) (cli : Client J E) (node : N)
    (hconflict : streamErrorConflictType api node = "replaced")
    (h515 : streamErrorCode api node ≠ "515") :
    (handleStreamError api rd w cli node).markedExpectDisconnect ∧
    (handleStreamError api rd w cli node).events = [Event.StreamReplaced] ∧
    (handleStreamError api rd w cli node).allCalls.countP Call.isStoreDelete = 0 ∧
    (handleStreamError api rd w cli node).allCalls.countP Call.isRefreshCAT = 0 ∧
    (handleStreamError api rd w cli node).allCalls.countP Call.isDisconnect = 0 ∧
    (handleStreamError api rd w cli node).allCalls.countP Call.isConnect = 0 := by
  unfold handleStreamError Outcome.markedExpectDisconnect
  simp only [if_neg h515, hconflict]
  simp [Outcome.call, Outcome.go, Outcome.allCalls, Outcome.events, eventsOf,
    List.countP_cons, Call.isRefreshCAT, Call.isStoreDelete, Call.isExpectDisconnect,
    Call.isDisconnect, Call.isConnect]

/-- A stream error with code "401" that carries a "replaced" conflict. -/
def node401Replaced : SampleNode :=
  SampleNode.mk "stream:error" [("code", SampleValue.str "401")]
    [SampleNode.mk "conflict" [("type", SampleValue.str "replaced")] []]

theorem handleStreamError_replaced_witness :
    streamErrorConflictType sampleAPI node401Replaced = "replaced" ∧
    streamErrorCode sampleAPI node401Replaced ≠ "515" ∧
    (handleStreamError sampleAPI sampleReasons sampleWorld clientRefreshFails
      node401Replaced).events = [Event.StreamReplaced] :=
  ⟨by decide, by decide,
   (handleStreamError_replaced sampleAPI sampleReasons sampleWorld clientRefreshFails
      node401Replaced (by decide) (by decide)).2.1⟩

/-- C13: a stream error with code "503" whose conflict type is not "replaced" is
silent: no event, no expect-disconnect, no `Store.Delete`, no `RefreshCAT`, no
goroutine (so no reconnect). The client afterwards is the client before with
`isLoggedIn` false, and apart from log calls the only call is
`clearResponseWaiters(node)`. -/
theorem handleStreamError_503 {N V J E : Type} (api : NodeAPI N V J)
    (rd : ReasonDecls) (w : World E) (cli : Client J E) (node : N)
    (hcode : streamErrorCode api node = "503")
    (hreplaced : streamErrorConflictType api node ≠ "replaced") :
    (handleStreamError api rd w cli node).events = [] ∧
    ¬ (handleStreamError api rd w cli node).markedExpectDisconnect ∧
    (handleStreamError api rd w cli node).allCalls.countP Call.isStoreDelete = 0 ∧
    (handleStreamError api rd w cli node).allCalls.countP Call.isRefreshCAT = 0 ∧
    (handleStreamError api rd w cli node).tasks = [] ∧
    (handleStreamError api rd w cli node).allCalls.countP Call.isDisconnect = 0 ∧
    (handleStreamError api rd w cli node).allCalls.countP Call.isConnect = 0 ∧
    (handleStreamError api rd w cli node).cli = { cli with isLoggedIn := false } ∧
    (handleStreamError api rd w cli node).calls.filter (fun c => !c.isLog) =
      [Call.clearResponseWaiters node] := by
  unfold handleStreamError Outcome.markedExpectDisconnect
  simp only [hcode, if_neg hreplaced]
  simp [Outcome.call, Outcome.allCalls, Outcome.events, eventsOf,
    List.countP_cons, Call.isRefreshCAT, Call.isStoreDelete, Call.isExpectDisconnect,
    Call.isDisconnect, Call.isConnect, Call.isLog, List.filter_cons]

/-- A stream error with code "503" and no conflict child. -/
def node503 : SampleNode :=
  SampleNode.mk "stream:error" [("code", SampleValue.str "503")] []

theorem handleStreamError_503_witness :
    streamErrorCode sampleAPI node503 = "503" ∧
    streamErrorConflictType sampleAPI node503 ≠ "replaced" ∧
    (handleStreamError sampleAPI sampleReasons sampleWorld clientRefreshFails
      node503).events = [] :=
  ⟨by decide, by decide,
   (handleStreamError_503 sampleAPI sampleReasons sampleWorld clientRefreshFails
      node503 (by decide) (by decide)).1⟩

/-! ## Connect failures: the remaining reasons -/

/-- C14: a connect failure whose reason is not a logged-out reason, not TempBanned,
not ClientOutdated and not a CAT reason. If the reason is ServiceUnavailable or
InternalServerError the handler dispatches no event and does not mark
expect-disconnect; for every other such reason it dispatches exactly the one event
`ConnectFailure{Reason: reason, Message: message, Raw: node}` with the reason and
the optional message attribute of the node. In both cases the handler returns. -/
theorem handleConnectFailure_other {N V J E : Type} (api : NodeAPI N V J)
    (rd : ReasonDecls) (w : World E) (cli : Client J E) (node : N)
    (hlo : rd.IsLoggedOut (api.Int node "reason") = false)
    (hban : api.Int node "reason" ≠ rd.ConnectFailureTempBanned)
    (hout : api.Int node "reason" ≠ rd.ConnectFailureClientOutdated)
    (hcat : ¬ isCATReason rd (api.Int node "reason")) :
    ∃ out, handleConnectFailure api rd w cli node = Except.ok out ∧
      (isAutoReconnectReason rd (api.Int node "reason") →
        out.events = [] ∧ ¬ out.markedExpectDisconnect) ∧
      (¬ isAutoReconnectReason rd (api.Int node "reason") →
        out.events = [Event.ConnectFailure (api.Int node "reason")
          (api.OptionalString node "message") node]) := by
  unfold handleConnectFailure Outcome.markedExpectDisconnect
  generalize api.Int node "reason" = reason at hlo hban hout hcat ⊢
  by_cases hauto : isAutoReconnectReason rd reason <;>
  simp [-List.countP_eq_zero, connectFailureSwitch, connectFailureDispatch, hlo, hban, hout,
    hcat, hauto, runDeferred, events_call, events_go, events_init, events_log403, eventsOf,
    countP_allCalls_call, countP_allCalls_go, countP_allCalls_init, countP_allCalls_log403,
    Call.isExpectDisconnect, Call.isDispatchEvent]

/-- A connect failure with reason 409 and a message. -/
def nodeReason409 : SampleNode :=
  SampleNode.mk "failure"
    [("reason", SampleValue.num 409), ("message", SampleValue.str "bad user agent")] []

theorem handleConnectFailure_other_witness :
    sampleReasons.IsLoggedOut (sampleAPI.Int nodeReason409 "reason") = false ∧
    sampleAPI.Int nodeReason409 "reason" ≠ sampleReasons.ConnectFailureTempBanned ∧
    sampleAPI.Int nodeReason409 "reason" ≠ sampleReasons.ConnectFailureClientOutdated ∧
    ¬ isCATReason sampleReasons (sampleAPI.Int nodeReason409 "reason") ∧
    ¬ isAutoReconnectReason sampleReasons (sampleAPI.Int nodeReason409 "reason") ∧
    ∃ out, handleConnectFailure sampleAPI sampleReasons sampleWorld sampleClient
        nodeReason409 = Except.ok out ∧
      out.events = [Event.ConnectFailure 409 "bad user agent" nodeReason409] :=
  ⟨by decide, by decide, by decide, by decide, by decide,
   match handleConnectFailure_other sampleAPI sampleReasons sampleWorld sampleClient
     nodeReason409 (by decide) (by decide) (by decide) (by decide) with
   | ⟨out, hout, _, h⟩ => ⟨out, hout, h (by decide)⟩⟩

/-- C18 fails on the code: with `RefreshCAT` nil, the connect failure with reason
CATExpired makes `handleConnectFailure` call the nil callback (a panic), whereas
`handleStreamError`, given the stream error with the same code, does not call
`RefreshCAT`. -/
theorem handleConnectFailure_nil_RefreshCAT :
    sampleClient.RefreshCAT = none ∧
    sampleAPI.Int nodeCATExpired "reason" = sampleReasons.ConnectFailureCATExpired ∧
    handleConnectFailure sampleAPI sampleReasons sampleWorld sampleClient nodeCATExpired =
      Except.error Panic.nilFunctionCall ∧
    streamErrorCode sampleAPI nodeStreamCATExpired =
      sampleReasons.NumberString sampleReasons.ConnectFailureCATExpired ∧
    (handleStreamError sampleAPI sampleReasons sampleWorld sampleClient
      nodeStreamCATExpired).allCalls.countP Call.isRefreshCAT = 0 :=
  ⟨rfl, by decide, rfl, by decide, by decide⟩

/-! ## The logged-in flag -/

/-- The first call of `handleStreamError` is `clearResponseWaiters(node)`, it is the
only such call, and the client afterwards differs from the client before at most in
`isLoggedIn`, which is false. -/
theorem handleStreamError_frame {N V J E : Type} (api : NodeAPI N V J)
    (rd : ReasonDecls) (w : World E) (cli : Client J E) (node : N) :
    (handleStreamError api rd w cli node).cli = { cli with isLoggedIn := false } ∧
    (handleStreamError api rd w cli node).allCalls.countP Call.isClearResponseWaiters = 1 ∧
    ∃ rest, (handleStreamError api rd w cli node).calls =
      Call.clearResponseWaiters node :: rest := by
  unfold handleStreamError reconnectTask
  dsimp only
  split_ifs <;> cases w.StoreDelete <;> cases w.connect <;>
    rcases cli.RefreshCAT with _ | _ | err <;>
    simp [Outcome.call, Outcome.go, Outcome.allCalls, List.countP_cons,
      Call.isClearResponseWaiters]

/-- C15: for every node, configuration and prior state, after `handleStreamError`
the client has `isLoggedIn` false and `clearResponseWaiters` has been called exactly
once, as the first call of the handler (before any branch is taken); after
`handleConnectSuccess` the client has `isLoggedIn` true and `AutoReconnectErrors`
0. -/
theorem lifecycle_isLoggedIn {N V J E : Type} [DecidableEq J] (api : NodeAPI N V J)
    (rd : ReasonDecls) (td : TypeDecls J) (w : World E) (cli : Client J E) (node : N) :
    ((handleStreamError api rd w cli node).cli.isLoggedIn = false ∧
      (handleStreamError api rd w cli node).allCalls.countP Call.isClearResponseWaiters = 1 ∧
      ∃ rest, (handleStreamError api rd w cli node).calls =
        Call.clearResponseWaiters node :: rest) ∧
    ((handleConnectSuccess api td w cli node).cli.isLoggedIn = true ∧
      (handleConnectSuccess api td w cli node).cli.AutoReconnectErrors = 0) := by
  obtain ⟨hcli, hcount, hfirst⟩ := handleStreamError_frame api rd w cli node
  refine ⟨⟨?_, hcount, hfirst⟩, ?_, ?_⟩
  · rw [hcli]
  · exact (reconcileLID_frame td w (api.JID node "lid") _).2.2.1
  · exact (reconcileLID_frame td w (api.JID node "lid") _).2.2.2.1

/-! ## Connect success: idempotence of the LID reconciliation -/

/-- When the node's LID is empty the reconciliation does nothing. -/
theorem reconcileLID_of_empty {N J E : Type} [DecidableEq J] (td : TypeDecls J)
    (w : World E) (nodeLID : J) (o : Outcome N J E) (hnode : td.IsEmpty nodeLID = true) :
    reconcileLID td w nodeLID o = o := by
  unfold reconcileLID
  simp [hnode]

/-- When the stored LID already is the node's LID the reconciliation does nothing. -/
theorem reconcileLID_of_eq {N J E : Type} [DecidableEq J] (td : TypeDecls J)
    (w : World E) (nodeLID : J) (o : Outcome N J E) (hnode : td.IsEmpty nodeLID = false)
    (heq : o.cli.Store.LID = nodeLID) :
    reconcileLID td w nodeLID o = o := by
  unfold reconcileLID
  simp [hnode, heq]

/-- When the node's LID is not empty the reconciliation leaves it as the stored
LID. -/
theorem reconcileLID_LID {N J E : Type} [DecidableEq J] (td : TypeDecls J)
    (w : World E) (nodeLID : J) (o : Outcome N J E)
    (hempty : td.IsEmpty td.EmptyJID = true) (hnode : td.IsEmpty nodeLID = false) :
    (reconcileLID td w nodeLID o).cli.Store.LID = nodeLID := by
  unfold reconcileLID
  cases hS : td.IsEmpty o.cli.Store.LID <;>
  by_cases hne : o.cli.Store.LID = nodeLID <;>
  cases hs : w.StoreSave <;>
  simp [hempty, hnode, hS, hne, hs, Outcome.call]

/-- A client whose stored LID already is the node's lid, when that is not empty,
keeps its stored LID through `handleConnectSuccess`, and `Store.Save` is not
called. -/
theorem handleConnectSuccess_of_settled {N V J E : Type} [DecidableEq J]
    (api : NodeAPI N V J) (td : TypeDecls J) (w : World E) (cli : Client J E) (node : N)
    (hsettled : td.IsEmpty (api.JID node "lid") = false →
      cli.Store.LID = api.JID node "lid") :
    (handleConnectSuccess api td w cli node).cli.Store.LID = cli.Store.LID ∧
    (handleConnectSuccess api td w cli node).allCalls.countP Call.isStoreSave = 0 := by
  have htask := countP_connectSuccessTask api td w (Call.isStoreSave : Call N J E → Bool)
    rfl rfl rfl (fun _ => rfl) (fun _ => rfl) rfl (fun _ _ => rfl)
  have hnoop : ∀ o : Outcome N J E, o.cli.Store.LID = cli.Store.LID →
      reconcileLID td w (api.JID node "lid") o = o := by
    intro o ho
    cases hnode : td.IsEmpty (api.JID node "lid")
    · exact reconcileLID_of_eq td w _ _ hnode (ho.trans (hsettled hnode))
    · exact reconcileLID_of_empty td w _ _ hnode
  unfold handleConnectSuccess
  simp only [countP_allCalls_go, countP_allCalls_call, htask]
  rw [hnoop _ rfl]
  exact ⟨rfl, rfl⟩

/-- C19: the LID reconciliation of `handleConnectSuccess` is idempotent: handling
the same node a second time leaves the stored LID as the first handling left it and
does not call `Store.Save`; and whenever the node's lid is not empty the stored LID
after handling is the node's lid (`EmptyJID` being empty, and `Store.Save` not
changing the in-memory LID). -/
theorem handleConnectSuccess_lid_idempotent {N V J E : Type} [DecidableEq J]
    (api : NodeAPI N V J) (td : TypeDecls J) (w₁ w₂ : World E) (cli : Client J E) (node : N)
    (hempty : td.IsEmpty td.EmptyJID = true) :
    (handleConnectSuccess api td w₂ (handleConnectSuccess api td w₁ cli node).cli
        node).cli.Store.LID = (handleConnectSuccess api td w₁ cli node).cli.Store.LID ∧
    (handleConnectSuccess api td w₂ (handleConnectSuccess api td w₁ cli node).cli
        node).allCalls.countP Call.isStoreSave = 0 ∧
    (td.IsEmpty (api.JID node "lid") = false →
      (handleConnectSuccess api td w₁ cli node).cli.Store.LID = api.JID node "lid") := by
  have hfirst : td.IsEmpty (api.JID node "lid") = false →
      (handleConnectSuccess api td w₁ cli node).cli.Store.LID = api.JID node "lid" :=
    fun hnode => reconcileLID_LID td w₁ (api.JID node "lid") _ hempty hnode
  obtain ⟨hlid, hsave⟩ := handleConnectSuccess_of_settled api td w₂
    (handleConnectSuccess api td w₁ cli node).cli node hfirst
  exact ⟨hlid, hsave, hfirst⟩

/-- The client with the stored LID 111@lid handles the connect-success node with the
LID 222@lid twice. -/
theorem handleConnectSuccess_lid_idempotent_witness :
    sampleTypes.IsEmpty sampleTypes.EmptyJID = true ∧
    (handleConnectSuccess sampleAPI sampleTypes worldFewPreKeys
      (handleConnectSuccess sampleAPI sampleTypes sampleWorld clientWithLID
        nodeSuccessLID).cli nodeSuccessLID).cli.Store.LID =
      (handleConnectSuccess sampleAPI sampleTypes sampleWorld clientWithLID
        nodeSuccessLID).cli.Store.LID ∧
    (handleConnectSuccess sampleAPI sampleTypes worldFewPreKeys
      (handleConnectSuccess sampleAPI sampleTypes sampleWorld clientWithLID
        nodeSuccessLID).cli nodeSuccessLID).allCalls.countP Call.isStoreSave = 0 :=
  ⟨by decide,
   (handleConnectSuccess_lid_idempotent sampleAPI sampleTypes sampleWorld worldFewPreKeys
     clientWithLID nodeSuccessLID (by decide)).1,
   (handleConnectSuccess_lid_idempotent sampleAPI sampleTypes sampleWorld worldFewPreKeys
     clientWithLID nodeSuccessLID (by decide)).2.1⟩

/-! ## The connection header and the frame envelope -/

/-- C17: `WAConnHeader` is exactly the 4 bytes 0x57, 0x41, 0x05 (`WAMagicValue`),
0x02 (`WADictVersion`); `NoiseStartPattern` is exactly 32 bytes, the 28 ASCII bytes
of "Noise_XX_25519_AESGCM_SHA256" followed by 4 zero bytes; and the header followed
by the pattern is the 36-byte preamble. -/
theorem WAConnHeader_NoiseStartPattern_bytes :
    WAConnHeader = [0x57, 0x41, 0x05, 0x02] ∧
    WAMagicValue = 0x05 ∧ WADictVersion = 0x02 ∧
    stringBytes NoiseStartPattern =
      stringBytes "Noise_XX_25519_AESGCM_SHA256" ++ [0, 0, 0, 0] ∧
    (stringBytes "Noise_XX_25519_AESGCM_SHA256").length = 28 ∧
    (stringBytes NoiseStartPattern).length = 32 ∧
    (∀ b ∈ stringBytes NoiseStartPattern, b < 128) ∧
    WAConnHeader ++ stringBytes NoiseStartPattern =
      [0x57, 0x41, 0x05, 0x02,
       78, 111, 105, 115, 101, 95, 88, 88, 95, 50, 53, 53, 49, 57, 95,
       65, 69, 83, 71, 67, 77, 95, 83, 72, 65, 50, 53, 54, 0, 0, 0, 0] ∧
    (WAConnHeader ++ stringBytes NoiseStartPattern).length = 36 := by
  refine ⟨by decide, by decide, by decide, by decide, by decide, by decide, by decide,
    by decide, by decide⟩

/-- The value of `FrameMaxSize`, 2^24. -/
theorem FrameMaxSize_eq : FrameMaxSize = 16777216 := by decide

/-- A length below 2^24 is the big-endian value of its 3-byte prefix. -/
theorem lengthPrefix_value (n : Nat) (hn : n < 16777216) :
    (n >>> 16) % 256 * 65536 + (n >>> 8) % 256 * 256 + n % 256 = n := by
  simp only [Nat.shiftRight_eq_div_pow]
  omega

/-- C16 (amended): for every payload P with len(P) < FrameMaxSize, the frame made of
the 3-byte big-endian length prefix followed by P decodes to exactly P with nothing
left over; the prefix has `FrameLengthSize` bytes, each below 256, and its
big-endian value is len(P). -/
theorem frame_roundtrip (P : List Nat) (hlen : P.length < FrameMaxSize) :
    encodeFrame P = Except.ok (lengthPrefix P.length ++ P) ∧
    (lengthPrefix P.length).length = FrameLengthSize ∧
    (∀ b ∈ lengthPrefix P.length, b < 256) ∧
    (P.length >>> 16) % 256 * 65536 + (P.length >>> 8) % 256 * 256 + P.length % 256 =
      P.length ∧
    decodeNext (lengthPrefix P.length ++ P) = DecodeResult.Frame P [] := by
  have hmax := FrameMaxSize_eq
  have hval := lengthPrefix_value P.length (by omega)
  refine ⟨?_, rfl, ?_, hval, ?_⟩
  · unfold encodeFrame
    rw [if_neg (by omega)]
  · intro b hb
    simp only [lengthPrefix, List.mem_cons, List.mem_singleton, List.not_mem_nil,
      or_false] at hb
    rcases hb with h | h | h <;> subst h <;> exact Nat.mod_lt _ (by decide)
  · simp only [lengthPrefix, List.cons_append, List.nil_append, decodeNext, hval]
    rw [if_neg (by omega), if_neg (by omega)]
    simp

/-- A payload of three bytes. -/
def payloadThreeBytes : List Nat := [1, 2, 3]

theorem frame_roundtrip_witness :
    payloadThreeBytes.length < FrameMaxSize ∧
    encodeFrame payloadThreeBytes = Except.ok [0, 0, 3, 1, 2, 3] ∧
    decodeNext [0, 0, 3, 1, 2, 3] = DecodeResult.Frame payloadThreeBytes [] :=
  ⟨by decide, (frame_roundtrip payloadThreeBytes (by decide)).1,
   (frame_roundtrip payloadThreeBytes (by decide)).2.2.2.2⟩

/-- A payload of exactly `FrameMaxSize` zero bytes. -/
def payloadMaxSize : List Nat := List.replicate FrameMaxSize 0

/-- The payload `payloadMaxSize` has `FrameMaxSize` bytes. -/
theorem payloadMaxSize_length : payloadMaxSize.length = FrameMaxSize :=
  List.length_replicate _ _

/-- C16 fails as stated: a payload of exactly `FrameMaxSize` bytes is accepted by
`encodeFrame`, but its length 2^24 does not fit the 3-byte prefix, which comes out
as 00 00 00; decoding the frame yields the empty payload, not the payload. -/
theorem frame_roundtrip_fails_at_FrameMaxSize :
    payloadMaxSize.length ≤ FrameMaxSize ∧
    encodeFrame payloadMaxSize = Except.ok (0 :: 0 :: 0 :: payloadMaxSize) ∧
    decodeNext (0 :: 0 :: 0 :: payloadMaxSize) = DecodeResult.Frame [] payloadMaxSize ∧
    DecodeResult.Frame [] payloadMaxSize ≠ DecodeResult.Frame payloadMaxSize [] := by
  have hlen := payloadMaxSize_length
  have hprefix : lengthPrefix FrameMaxSize = [0, 0, 0] := by decide
  refine ⟨by omega, ?_, ?_, ?_⟩
  · unfold encodeFrame
    rw [if_neg (by omega), hlen, hprefix]
    rfl
  · simp only [decodeNext]
    rw [if_neg (by omega), if_neg (by omega)]
    rfl
  · intro h
    injection h with h1 h2
    have h0 := congrArg List.length h1
    rw [hlen, FrameMaxSize_eq] at h0
    exact absurd h0 (by decide)

/-! ## handleIB -/

/-- Dispatching an event in the handler itself adds one event to the run. -/
theorem events_length_call_dispatchEvent {N J E : Type} (o : Outcome N J E)
    (evt : Event N E) :
    (o.call (Call.dispatchEvent evt)).events.length = o.events.length + 1 := by
  simp only [Outcome.call, Outcome.events, Outcome.allCalls, eventsOf_append, eventsOf,
    List.length_append, List.length_cons, List.length_nil]
  omega

/-- One pass of the loop of `handleIB` adds one event when the tag of the child is
one of the three recognised tags, and none otherwise. -/
theorem events_length_handleIBChild {N V J E : Type} (api : NodeAPI N V J)
    (o : Outcome N J E) (child : N) :
    (handleIBChild api o child).events.length = o.events.length +
      (if api.Tag child = "downgrade_webclient" ∨ api.Tag child = "offline_preview" ∨
          api.Tag child = "offline" then 1 else 0) := by
  unfold handleIBChild
  by_cases h1 : api.Tag child = "downgrade_webclient"
  · simp [h1, events_go, eventsOf]
  · by_cases h2 : api.Tag child = "offline_preview"
    · simp [h1, h2, events_length_call_dispatchEvent]
    · by_cases h3 : api.Tag child = "offline"
      · simp [h1, h2, h3, events_length_call_dispatchEvent]
      · simp [h1, h2, h3]

/-- The loop of `handleIB` from a run `o`: the number of events it adds. -/
theorem events_length_foldl_handleIBChild {N V J E : Type} (api : NodeAPI N V J)
    (children : List N) (o : Outcome N J E) :
    (children.foldl (handleIBChild api) o).events.length = o.events.length +
      children.countP (fun c => decide (api.Tag c = "downgrade_webclient" ∨
        api.Tag c = "offline_preview" ∨ api.Tag c = "offline")) := by
  induction children generalizing o with
  | nil => simp
  | cons child rest ih =>
    rw [List.foldl_cons, ih, events_length_handleIBChild, List.countP_cons]
    simp only [decide_eq_true_eq]
    omega

/-- The loop of `handleIB` from a run `o`: the goroutines it starts and the calls it
makes, child by child. -/
theorem foldl_handleIBChild {N V J E : Type} (api : NodeAPI N V J)
    (children : List N) (o : Outcome N J E) :
    children.foldl (handleIBChild api) o =
      { cli := o.cli,
        calls := o.calls ++
          (children.filter (fun c => decide (api.Tag c = "offline_preview" ∨
              api.Tag c = "offline"))).map
            (fun c => Call.dispatchEvent
              (if api.Tag c = "offline_preview" then
                Event.OfflineSyncPreview (api.Int c "count") (api.Int c "appdata")
                  (api.Int c "message") (api.Int c "notification") (api.Int c "receipt")
               else Event.OfflineSyncCompleted (api.Int c "count"))),
        tasks := o.tasks ++
          (children.filter (fun c => decide (api.Tag c = "downgrade_webclient"))).map
            (fun _ => [Call.dispatchEvent Event.QRScannedWithoutMultidevice]) } := by
  induction children generalizing o with
  | nil => simp
  | cons child rest ih =>
    rw [List.foldl_cons, ih]
    unfold handleIBChild
    by_cases h1 : api.Tag child = "downgrade_webclient"
    · simp [h1, Outcome.go, List.filter_cons]
    · by_cases h2 : api.Tag child = "offline_preview"
      · simp [h1, h2, Outcome.call, List.filter_cons]
      · by_cases h3 : api.Tag child = "offline"
        · simp [h1, h2, h3, Outcome.call, List.filter_cons]
        · simp [h1, h2, h3, List.filter_cons]

/-- C20: `handleIB` dispatches exactly one event per child whose tag is
"downgrade_webclient" (`QRScannedWithoutMultidevice`, in a goroutine),
"offline_preview" (`OfflineSyncPreview`) or "offline" (`OfflineSyncCompleted`), in
the order of the children, and none for any other child, so the number of events
is the number of children with one of the three tags. An `OfflineSyncPreview`
carries Total, AppDataChanges, Messages, Notifications, Receipts from the
attributes count, appdata, message, notification, receipt of its child, and an
`OfflineSyncCompleted` carries Count from count. -/
theorem handleIB_events {N V J E : Type} (api : NodeAPI N V J) (cli : Client J E)
    (node : N) :
    (handleIB api cli node : Outcome N J E).events.length =
      (api.GetChildren node).countP (fun c => decide (api.Tag c = "downgrade_webclient" ∨
        api.Tag c = "offline_preview" ∨ api.Tag c = "offline")) ∧
    (handleIB api cli node : Outcome N J E).tasks =
      ((api.GetChildren node).filter
          (fun c => decide (api.Tag c = "downgrade_webclient"))).map
        (fun _ => [Call.dispatchEvent Event.QRScannedWithoutMultidevice]) ∧
    (handleIB api cli node : Outcome N J E).calls =
      ((api.GetChildren node).filter (fun c => decide (api.Tag c = "offline_preview" ∨
          api.Tag c = "offline"))).map
        (fun c => Call.dispatchEvent
          (if api.Tag c = "offline_preview" then
            Event.OfflineSyncPreview (api.Int c "count") (api.Int c "appdata")
              (api.Int c "message") (api.Int c "notification") (api.Int c "receipt")
           else Event.OfflineSyncCompleted (api.Int c "count"))) ∧
    (handleIB api cli node : Outcome N J E).cli = cli := by
  unfold handleIB
  refine ⟨?_, ?_, ?_, ?_⟩
  · rw [events_length_foldl_handleIBChild]
    simp [Outcome.events, Outcome.allCalls, eventsOf]
  · rw [foldl_handleIBChild]
    simp
  · rw [foldl_handleIBChild]
    simp
  · rw [foldl_handleIBChild]

/-- An ib node with an offline preview, an unrelated child, a downgrade notice and an
offline-complete child. -/
def nodeIB : SampleNode :=
  SampleNode.mk "ib" []
    [SampleNode.mk "offline_preview"
       [("count", SampleValue.num 10), ("appdata", SampleValue.num 1),
        ("message", SampleValue.num 6), ("notification", SampleValue.num 2),
        ("receipt", SampleValue.num 1)] [],
     SampleNode.mk "dirty" [] [],
     SampleNode.mk "downgrade_webclient" [] [],
     SampleNode.mk "offline" [("count", SampleValue.num 10)] []]

theorem handleIB_events_witness :
    (handleIB sampleAPI sampleClient nodeIB : Outcome SampleNode SampleJID String).events.length
      = 3 :=
  (handleIB_events sampleAPI sampleClient nodeIB).1.trans (by decide)

/-- The events of `handleIB` on `nodeIB`: the two dispatched by the handler itself,
then the one dispatched by its goroutine. -/
theorem handleIB_nodeIB :
    (handleIB sampleAPI sampleClient nodeIB : Outcome SampleNode SampleJID String).events =
      [Event.OfflineSyncPreview 10 1 6 2 1, Event.OfflineSyncCompleted 10,
       Event.QRScannedWithoutMultidevice] := by
  rfl

end Whatsmeow
